import Mathlib

/-!
# ScrollGL: a verification development for `main.c`

A shallow embedding of the sprite renderer in `src/main.c`.

* Buffers (`unsigned char*`) are lists of bytes; a byte is a natural number.
  `memcpy` is fallible: it yields `none` when a source or destination offset
  lies outside its buffer (undefined behaviour in C).
* `int` values are natural numbers: offsets are computed without wrap-around.
  `stbi_load` only returns images whose `width * height * n_channels` fits an
  `int`; for an image at least 16 high every offset of the crop loop is at
  most that product, and for a lower one the largest offset is
  `(15 * width + 16) * n_channels`, below `2^31` for any width up to `2^24`,
  the largest dimension stb_image decodes.
* `float` values are the rationals that IEEE 754 binary32 represents; every
  `float` operation yields the exact result rounded to the nearest such value,
  ties to even (`binary32.round`).  Infinities, NaN and the sign of zero are
  not represented: no operation of this program overflows or divides by zero.
  The functions of glm (`ortho`, `translate`, `scale`) are library code, not
  part of this repository; they are written here from glm's implementation,
  operation by operation.
* GLFW / OpenGL / stb_image calls are events of a trace; what the libraries
  answer (window creation, compile and link status, the decoded image, key
  state, time) is read from an explicit environment.
-/

namespace ScrollGL

/-! ## Buffers and `memcpy` -/

/-- One `unsigned char`. -/
abbrev Byte := Nat

/-- The call `memcpy(dst + d, src + s, len)`: bytes `d .. d + len - 1` of `dst`
become bytes `s .. s + len - 1` of `src`.  The result is `none` when the call
touches a byte outside `src` or outside `dst`. -/
def memcpy (dst : List Byte) (d : Nat) (src : List Byte) (s len : Nat) :
    Option (List Byte) :=
  if s + len ≤ src.length ∧ d + len ≤ dst.length then
    some ((List.range dst.length).map fun j =>
      if d ≤ j ∧ j < d + len then src.getD (s + (j - d)) 0 else dst.getD j 0)
  else none

/-! ## The crop loop of `main` (lines 220-229) -/

/-- The local `crop_height` of `main`. -/
def crop_height : Nat := 16
/-- The local `crop_width` of `main`. -/
def crop_width : Nat := 16
/-- The local `crop_x` of `main`. -/
def crop_x : Nat := 0
/-- The local `crop_y` of `main`. -/
def crop_y : Nat := 0

/-- The size passed to `malloc` for `cropped_img`: `16 * 16 * 4`. -/
def cropped_size : Nat := 16 * 16 * 4

/-- Destination offset of the `memcpy` of row `y`: `y * crop_width * n_channels`. -/
def cropDst (n_channels y : Nat) : Nat := y * crop_width * n_channels

/-- Source offset of the `memcpy` of row `y`:
`((y + crop_y) * width + crop_x) * n_channels`. -/
def cropSrc (width n_channels y : Nat) : Nat :=
  ((y + crop_y) * width + crop_x) * n_channels

/-- Length of every `memcpy` of the loop: `crop_width * n_channels`. -/
def cropLen (n_channels : Nat) : Nat := crop_width * n_channels

/-- The body of the loop for row `y`. -/
def cropRow (data : List Byte) (width n_channels : Nat) (cropped_img : List Byte)
    (y : Nat) : Option (List Byte) :=
  memcpy cropped_img (cropDst n_channels y) data (cropSrc width n_channels y)
    (cropLen n_channels)

/-- The loop `for (int y = 0; y < crop_height; y++) memcpy(...)`.  There is no
test of `width`, `height` or `n_channels` around it: the only way it stops
early is a `memcpy` outside a buffer. -/
def cropLoop (data : List Byte) (width n_channels : Nat) (cropped_img : List Byte) :
    Option (List Byte) :=
  (List.range crop_height).foldlM (cropRow data width n_channels) cropped_img

/-- Every byte offset of `data` that the loop's `memcpy` calls read, in order. -/
def cropReads (width n_channels : Nat) : List Nat :=
  (List.range crop_height).flatMap fun y =>
    (List.range (cropLen n_channels)).map fun i => cropSrc width n_channels y + i

namespace binary32

/-- The integer nearest to `q`; a `q` half-way between two integers goes to the
even one. -/
def roundHalfEven (q : ℚ) : ℤ :=
  if q - ⌊q⌋ < 1 / 2 then ⌊q⌋
  else if 1 / 2 < q - ⌊q⌋ then ⌊q⌋ + 1
  else if ⌊q⌋ % 2 = 0 then ⌊q⌋ else ⌊q⌋ + 1

/-- The spacing of binary32 values around `q ≠ 0`: `2 ^ (e - 23)` where
`2 ^ e ≤ |q| < 2 ^ (e + 1)` (24 significant bits), and `e = -126` for the
subnormal values below `2 ^ (-126)`. -/
def ulp (q : ℚ) : ℚ := 2 ^ (max (Int.log 2 |q|) (-126) - 23)

/-- The binary32 value nearest to `q`, ties to even: the rounding applied to
the result of every `float` operation and to every `float` literal.  Results of
magnitude `2 ^ 128` or more (infinity in binary32) are outside the model. -/
def round (q : ℚ) : ℚ :=
  if q = 0 then 0 else roundHalfEven (q / ulp q) * ulp q

/-- The `float` sum `a + b`. -/
def add (a b : ℚ) : ℚ := round (a + b)

/-- The `float` difference `a - b`. -/
def sub (a b : ℚ) : ℚ := round (a - b)

/-- The `float` product `a * b`. -/
def mul (a b : ℚ) : ℚ := round (a * b)

/-- The `float` quotient `a / b`, for `b ≠ 0`. -/
def div (a b : ℚ) : ℚ := round (a / b)

end binary32

/-! ## Vectors and matrices (`glm`)

The glm library is not part of this repository.  Its types and the three
functions `main` calls are written from glm's implementation (`glm::mat4` is
`mat<4, 4, float>`, stored by columns), each `float` operation rounding once. -/

namespace glm

/-- The type `glm::vec4`; the components are `float` values. -/
structure vec4 where
  x : ℚ
  y : ℚ
  z : ℚ
  w : ℚ
  deriving DecidableEq

/-- The type `glm::vec3`. -/
structure vec3 where
  x : ℚ
  y : ℚ
  z : ℚ
  deriving DecidableEq

/-- The type `glm::vec2`. -/
structure vec2 where
  x : ℚ
  y : ℚ
  deriving DecidableEq

/-- The constructor `glm::vec3(glm::vec2(x, y), z)`. -/
def vec3.ofVec2 (v : vec2) (z : ℚ) : vec3 := ⟨v.x, v.y, z⟩

/-- The `float` product `v * s` of a vector and a scalar, component by component. -/
def vec4.smul (v : vec4) (s : ℚ) : vec4 :=
  ⟨binary32.mul v.x s, binary32.mul v.y s, binary32.mul v.z s, binary32.mul v.w s⟩

/-- The `float` sum `u + v` of two vectors, component by component. -/
def vec4.add (u v : vec4) : vec4 :=
  ⟨binary32.add u.x v.x, binary32.add u.y v.y, binary32.add u.z v.z, binary32.add u.w v.w⟩

/-- The type `glm::mat4`: four columns, `c0 = m[0]`, ..., `c3 = m[3]`. -/
structure mat4 where
  c0 : vec4
  c1 : vec4
  c2 : vec4
  c3 : vec4
  deriving DecidableEq

/-- The constructor `glm::mat4(s)`: `s` on the diagonal, zero elsewhere. -/
def mat4.diag (s : ℚ) : mat4 :=
  ⟨⟨s, 0, 0, 0⟩, ⟨0, s, 0, 0⟩, ⟨0, 0, s, 0⟩, ⟨0, 0, 0, s⟩⟩

/-- The linear map that the matrix `m` denotes, applied to `v` in exact
arithmetic: row `i` of the result is `m[0][i] v.x + m[1][i] v.y + m[2][i] v.z +
m[3][i] v.w`.  This is the meaning of the uploaded numbers, used to state what
a matrix does; `main.c` itself never multiplies a matrix by a vector. -/
def mat4.apply (m : mat4) (v : vec4) : vec4 :=
  ⟨m.c0.x * v.x + m.c1.x * v.y + m.c2.x * v.z + m.c3.x * v.w,
   m.c0.y * v.x + m.c1.y * v.y + m.c2.y * v.z + m.c3.y * v.w,
   m.c0.z * v.x + m.c1.z * v.y + m.c2.z * v.z + m.c3.z * v.w,
   m.c0.w * v.x + m.c1.w * v.y + m.c2.w * v.z + m.c3.w * v.w⟩

/-- The function `glm::translate(m, v)`: `Result = m;
Result[3] = m[0] * v[0] + m[1] * v[1] + m[2] * v[2] + m[3]`, in `float`. -/
def translate (m : mat4) (v : vec3) : mat4 :=
  { m with c3 := (((m.c0.smul v.x).add (m.c1.smul v.y)).add (m.c2.smul v.z)).add m.c3 }

/-- The function `glm::scale(m, v)`: `Result[i] = m[i] * v[i]` for `i < 3`,
`Result[3] = m[3]`, in `float`. -/
def scale (m : mat4) (v : vec3) : mat4 :=
  ⟨m.c0.smul v.x, m.c1.smul v.y, m.c2.smul v.z, m.c3⟩

/-- The function `glm::ortho(left, right, bottom, top, zNear, zFar)` in glm's
default configuration (right-handed, depth range -1 .. 1), in `float`:
starting from `mat4(1)`, `Result[0][0] = 2 / (right - left)`,
`Result[1][1] = 2 / (top - bottom)`, `Result[2][2] = -2 / (zFar - zNear)`,
`Result[3][0] = -(right + left) / (right - left)`,
`Result[3][1] = -(top + bottom) / (top - bottom)`,
`Result[3][2] = -(zFar + zNear) / (zFar - zNear)`. -/
def ortho (left right bottom top zNear zFar : ℚ) : mat4 :=
  ⟨⟨binary32.div 2 (binary32.sub right left), 0, 0, 0⟩,
   ⟨0, binary32.div 2 (binary32.sub top bottom), 0, 0⟩,
   ⟨0, 0, binary32.div (-2) (binary32.sub zFar zNear), 0⟩,
   ⟨binary32.div (-(binary32.add right left)) (binary32.sub right left),
    binary32.div (-(binary32.add top bottom)) (binary32.sub top bottom),
    binary32.div (-(binary32.add zFar zNear)) (binary32.sub zFar zNear), 1⟩⟩

end glm

/-- The local `projection` of the render loop (line 258). -/
def projection : glm.mat4 := glm.ortho 0 256 240 0 (-1) 1

/-- The local `model` of the render loop (lines 263-265). -/
def model : glm.mat4 :=
  glm.scale (glm.translate (glm.mat4.diag 1) (glm.vec3.ofVec2 ⟨100, 100⟩ 0))
    (glm.vec3.ofVec2 ⟨16, 16⟩ 1)

/-! ## The vertex data -/

/-- The global array `vertices` (lines 174-181). -/
def vertices : List ℚ :=
  [0, 0,  0, 0,
   1, 0,  1, 0,
   1, 1,  1, 1,
   1, 1,  1, 1,
   0, 1,  0, 1,
   0, 0,  0, 0]

/-- The value of `sizeof(float)`. -/
def sizeof_float : Nat := 4

/-- The value of `sizeof(vertices)`: the array's length times `sizeof(float)`. -/
def sizeof_vertices : Nat := vertices.length * sizeof_float

/-! ## Events -/

/-- The OpenGL enumerants that `main.c` names. -/
inductive GLenum
  | GL_DEPTH_TEST | GL_VERTEX_SHADER | GL_FRAGMENT_SHADER | GL_COMPILE_STATUS
  | GL_LINK_STATUS | GL_ARRAY_BUFFER | GL_STATIC_DRAW | GL_FLOAT | GL_TEXTURE_2D
  | GL_TEXTURE_WRAP_S | GL_TEXTURE_WRAP_T | GL_TEXTURE_MIN_FILTER
  | GL_TEXTURE_MAG_FILTER | GL_REPEAT | GL_LINEAR_MIPMAP_LINEAR | GL_LINEAR
  | GL_RGBA | GL_UNSIGNED_BYTE | GL_TRIANGLES | GL_TEXTURE0
  | GL_COLOR_BUFFER_BIT | GL_DEPTH_BUFFER_BIT
  deriving DecidableEq, Repr

/-- The GLFW constants that `main.c` names. -/
inductive GLFWenum
  | GLFW_CONTEXT_VERSION_MAJOR | GLFW_CONTEXT_VERSION_MINOR | GLFW_OPENGL_PROFILE
  | GLFW_OPENGL_CORE_PROFILE | GLFW_KEY_ESCAPE | GLFW_PRESS
  deriving DecidableEq, Repr

/-- The value of a window hint: a number or a GLFW constant. -/
inductive HintValue
  | int (n : Int)
  | const (c : GLFWenum)
  deriving DecidableEq

/-- One library call made by the program, with the arguments it passes.
Handles (window, shader, program, vertex array, buffer, texture) are numbers. -/
inductive Call
  | glfwInit
  | glfwWindowHint (hint : GLFWenum) (value : HintValue)
  | glfwCreateWindow (width height : Nat) (title : String)
  | fprintf (text : String)
  | glfwTerminate
  | glfwMakeContextCurrent (window : Nat)
  | glfwSetFramebufferSizeCallback (window : Nat)
  | gladLoadGLLoader
  | glEnable (cap : GLenum)
  | ifstream_read (path : String)
  | glCreateShader (shader_type : GLenum)
  | glShaderSource (shader : Nat) (source : String)
  | glCompileShader (shader : Nat)
  | glGetShaderiv (shader : Nat) (pname : GLenum)
  | glGetShaderInfoLog (shader : Nat)
  | glCreateProgram
  | glAttachShader (program shader : Nat)
  | glLinkProgram (program : Nat)
  | glGetProgramiv (program : Nat) (pname : GLenum)
  | glGetProgramInfoLog (program : Nat)
  | glDeleteShader (shader : Nat)
  | glGenVertexArrays (n : Nat)
  | glGenBuffers (n : Nat)
  | glBindVertexArray (array : Nat)
  | glBindBuffer (target : GLenum) (buffer : Nat)
  | glBufferData (target : GLenum) (size : Nat) (data : List ℚ) (usage : GLenum)
  | glVertexAttribPointer (index size : Nat) (type : GLenum) (normalized : Bool)
      (stride pointer : Nat)
  | glEnableVertexAttribArray (index : Nat)
  | stbi_load (path : String)
  | malloc (size : Nat)
  | memcpy (dst src len : Nat)
  | glGenTextures (n : Nat)
  | glBindTexture (target : GLenum) (texture : Nat)
  | glTexParameteri (target pname param : GLenum)
  | glTexImage2D (target : GLenum) (level : Nat) (internal_format : GLenum)
      (width height border : Nat) (format type : GLenum) (data : List Byte)
  | glGenerateMipmap (target : GLenum)
  | stbi_image_free
  | glUseProgram (program : Nat)
  | glGetUniformLocation (program : Nat) (name : String)
  | glUniform1i (location : Int) (v0 : Int)
  | glfwWindowShouldClose (window : Nat)
  | glfwGetTime
  | glfwGetKey (window : Nat) (key : GLFWenum)
  | glfwSetWindowShouldClose (window : Nat) (value : Bool)
  | glClearColor (r g b a : ℚ)
  | glClear (mask : List GLenum)
  | glUniformMatrix4fv (location : Int) (count : Nat) (transpose : Bool)
      (value : glm.mat4)
  | glActiveTexture (texture : GLenum)
  | glDrawArrays (mode : GLenum) (first count : Nat)
  | glfwSwapBuffers (window : Nat)
  | glfwPollEvents
  | glDeleteVertexArrays (n array : Nat)
  | glDeleteBuffers (n buffer : Nat)
  | glDeleteProgram (program : Nat)

/-- Whether a call is a draw call. -/
def Call.isDraw : Call → Bool
  | .glDrawArrays _ _ _ => true
  | _ => false

/-- Whether a call is the loop test `glfwWindowShouldClose`. -/
def Call.isLoopTest : Call → Bool
  | .glfwWindowShouldClose _ => true
  | _ => false

/-! ## The environment -/

/-- What `stbi_load` returns on success: the decoded pixels and the three
numbers it writes through its pointer arguments. -/
structure Image where
  width : Nat
  height : Nat
  n_channels : Nat
  data : List Byte

/-- An image as `stbi_load(path, &w, &h, &n, 0)` can return it: `n` is 1 to 4,
both dimensions are positive and `data` holds `w * h * n` bytes. -/
def Image.decodable (img : Image) : Prop :=
  0 < img.width ∧ 0 < img.height ∧ 1 ≤ img.n_channels ∧ img.n_channels ≤ 4 ∧
    img.data.length = img.width * img.height * img.n_channels

/-- What the outside world answers during one iteration of the render loop. -/
structure FrameInput where
  /-- The value of `glfwGetTime()`, a `double`. -/
  time : ℚ
  /-- Whether `glfwGetKey(window, GLFW_KEY_ESCAPE) == GLFW_PRESS`. -/
  escape : Bool
  /-- Whether `glfwPollEvents` sets the window's close flag in this iteration. -/
  closeRequested : Bool

/-- Everything the libraries and the outside world answer during one run. -/
structure Env where
  /-- The result of `glfwCreateWindow`; `none` is `NULL`. -/
  createWindow : Option Nat
  /-- Whether `gladLoadGLLoader` returns non-zero. -/
  gladLoaded : Bool
  /-- The text read by the `try` block of `init_shader`; `none` when an
  `std::ifstream::failure` is thrown inside it. -/
  readFile : String → Option String
  /-- The text of `e.what()` for a failure on a path. -/
  what : String → String
  /-- The handle returned by `glCreateShader`. -/
  createShader : GLenum → Nat
  /-- The value of `GL_COMPILE_STATUS` after compiling a source text. -/
  compileStatus : GLenum → String → Int
  /-- The info log of a shader compiled from a source text. -/
  shaderInfoLog : GLenum → String → String
  /-- The handle returned by `glCreateProgram`. -/
  createProgram : Nat
  /-- The value of `GL_LINK_STATUS` after linking two shaders. -/
  linkStatus : Nat → Nat → Int
  /-- The info log of the program. -/
  programInfoLog : String
  /-- The name written by `glGenVertexArrays`. -/
  genVertexArray : Nat
  /-- The name written by `glGenBuffers`. -/
  genBuffer : Nat
  /-- The result of `stbi_load`; `none` is `NULL`. -/
  stbi_load : String → Option Image
  /-- The initial contents of the block returned by `malloc`; `none` is `NULL`. -/
  malloc : Option (Nat → Byte)
  /-- The name written by `glGenTextures`. -/
  genTexture : Nat
  /-- The result of `glGetUniformLocation`. -/
  uniformLocation : Nat → String → Int
  /-- The answers for the successive iterations of the render loop. -/
  frames : List FrameInput

/-! ## The functions of `main.c` -/

/-- The function `process_input` (lines 18-22).  The first component is the
window's close flag after the call. -/
def process_input (shouldClose : Bool) (inp : FrameInput) (window : Nat) (_deltaTime : ℚ) :
    Bool × List Call :=
  if inp.escape then
    (true, [.glfwGetKey window .GLFW_KEY_ESCAPE, .glfwSetWindowShouldClose window true])
  else
    (shouldClose, [.glfwGetKey window .GLFW_KEY_ESCAPE])

/-- The function `init_window` (lines 29-53); `none` is `NULL`. -/
def init_window (env : Env) (width height : Nat) (title : String) :
    Option Nat × List Call :=
  let hints : List Call :=
    [.glfwInit,
     .glfwWindowHint .GLFW_CONTEXT_VERSION_MAJOR (.int 3),
     .glfwWindowHint .GLFW_CONTEXT_VERSION_MINOR (.int 3),
     .glfwWindowHint .GLFW_OPENGL_PROFILE (.const .GLFW_OPENGL_CORE_PROFILE),
     .glfwCreateWindow width height title]
  match env.createWindow with
  | none =>
    (none, hints ++ [.fprintf "Failed to create GLFW window\n", .glfwTerminate])
  | some window =>
    let ctx : List Call :=
      hints ++ [.glfwMakeContextCurrent window, .glfwSetFramebufferSizeCallback window,
        .gladLoadGLLoader]
    if !env.gladLoaded then
      (none, ctx ++ [.fprintf "Failed to initialize GLAD\n", .glfwTerminate])
    else
      (some window, ctx ++ [.glEnable .GL_DEPTH_TEST])

/-- What a function with an `unsigned int*` out-parameter leaves behind: its
return value, the value stored through the pointer, and its calls. -/
structure OutResult where
  ret : Int
  out : Nat
  calls : List Call

/-- The function `init_shader` (lines 55-94).  `out` is `*shader` after the call. -/
def init_shader (env : Env) (shader_type : GLenum) (path : String) : OutResult :=
  /- read path -/
  let read : String × List Call :=
    match env.readFile path with
    | some text => (text, [.ifstream_read path])
    | none =>
      ("", [.ifstream_read path, .fprintf ("Failed to read file: " ++ path ++ "\n"),
            .fprintf (env.what path ++ "\n")])
  let code := read.1
  /- compile shader -/
  let shader := env.createShader shader_type
  let compile : List Call :=
    [.glCreateShader shader_type, .glShaderSource shader code, .glCompileShader shader,
     .glGetShaderiv shader .GL_COMPILE_STATUS]
  let success := env.compileStatus shader_type code
  if success = 0 then
    let message : String :=
      if shader_type = .GL_VERTEX_SHADER then "Failed compilation, vertex shader\n"
      else if shader_type = .GL_FRAGMENT_SHADER then "Failed compilation, fragment shader\n"
      else "Failed compilation, unknown shader\n"
    ⟨success, shader, read.2 ++ compile ++
      [.glGetShaderInfoLog shader, .fprintf message,
       .fprintf (env.shaderInfoLog shader_type code), .glfwTerminate]⟩
  else
    ⟨success, shader, read.2 ++ compile⟩

/-- The function `link_program` (lines 96-113).  `out` is `*shader_program`. -/
def link_program (env : Env) (vertex_shader fragment_shader : Nat) : OutResult :=
  let shader_program := env.createProgram
  let link : List Call :=
    [.glCreateProgram, .glAttachShader shader_program vertex_shader,
     .glAttachShader shader_program fragment_shader, .glLinkProgram shader_program,
     .glGetProgramiv shader_program .GL_LINK_STATUS]
  let success := env.linkStatus vertex_shader fragment_shader
  if success = 0 then
    ⟨success, shader_program, link ++
      [.glGetProgramInfoLog shader_program, .fprintf "Failed linking, shader program\n",
       .fprintf env.programInfoLog, .glfwTerminate]⟩
  else
    ⟨success, shader_program, link⟩

/-- The function `bind_VAO_22` (lines 129-141): its return value and its calls. -/
def bind_VAO_22 (VAO VBO : Nat) (vertices : List ℚ) (vertices_len : Nat) :
    Int × List Call :=
  (1,
   [.glBindVertexArray VAO,
    .glBindBuffer .GL_ARRAY_BUFFER VBO,
    .glBufferData .GL_ARRAY_BUFFER vertices_len vertices .GL_STATIC_DRAW,
    .glVertexAttribPointer 0 2 .GL_FLOAT false (4 * sizeof_float) 0,
    .glEnableVertexAttribArray 0,
    .glVertexAttribPointer 1 2 .GL_FLOAT false (4 * sizeof_float) (2 * sizeof_float),
    .glEnableVertexAttribArray 1,
    .glBindBuffer .GL_ARRAY_BUFFER 0,
    .glBindVertexArray 0])

/-- The function `bind_texture_data` (lines 162-172): its return value and its calls. -/
def bind_texture_data (texture : Nat) (internal_format format : GLenum)
    (data : List Byte) (width height : Nat) : Int × List Call :=
  (1,
   [.glBindTexture .GL_TEXTURE_2D texture,
    .glTexParameteri .GL_TEXTURE_2D .GL_TEXTURE_WRAP_S .GL_REPEAT,
    .glTexParameteri .GL_TEXTURE_2D .GL_TEXTURE_WRAP_T .GL_REPEAT,
    .glTexParameteri .GL_TEXTURE_2D .GL_TEXTURE_MIN_FILTER .GL_LINEAR_MIPMAP_LINEAR,
    .glTexParameteri .GL_TEXTURE_2D .GL_TEXTURE_MAG_FILTER .GL_LINEAR,
    .glTexImage2D .GL_TEXTURE_2D 0 internal_format width height 0 format
      .GL_UNSIGNED_BYTE data,
    .glGenerateMipmap .GL_TEXTURE_2D])

/-! ## The render loop of `main` (lines 239-278) -/

/-- The handles the render loop uses. -/
structure Handles where
  window : Nat
  shader_program : Nat
  VAO : Nat
  texture : Nat

/-- The variables that live across iterations of the render loop, and the
window's close flag. -/
structure LoopState where
  shouldClose : Bool
  deltaTime : ℚ
  lastFrame : ℚ

/-- One iteration of the body of `while (!glfwWindowShouldClose(window))`
(lines 243-277). -/
def frame (env : Env) (h : Handles) (st : LoopState) (inp : FrameInput) :
    LoopState × List Call :=
  let currentFrame := binary32.round inp.time
  let deltaTime := binary32.sub currentFrame st.lastFrame
  let lastFrame := currentFrame
  let input := process_input st.shouldClose inp h.window deltaTime
  let projectionLoc := env.uniformLocation h.shader_program "projection"
  let modelLoc := env.uniformLocation h.shader_program "model"
  (⟨input.1 || inp.closeRequested, deltaTime, lastFrame⟩,
   [.glfwGetTime] ++ input.2 ++
   [.glClearColor (binary32.round (2 / 10)) (binary32.round (3 / 10))
      (binary32.round (3 / 10)) 1,
    .glClear [.GL_COLOR_BUFFER_BIT, .GL_DEPTH_BUFFER_BIT],
    .glUseProgram h.shader_program,
    .glGetUniformLocation h.shader_program "projection",
    .glUniformMatrix4fv projectionLoc 1 false projection,
    .glGetUniformLocation h.shader_program "model",
    .glUniformMatrix4fv modelLoc 1 false model,
    .glActiveTexture .GL_TEXTURE0,
    .glBindTexture .GL_TEXTURE_2D h.texture,
    .glBindVertexArray h.VAO,
    .glDrawArrays .GL_TRIANGLES 0 6,
    .glBindVertexArray 0,
    .glfwSwapBuffers h.window,
    .glfwPollEvents])

/-- What is known of the render loop after the recorded inputs. -/
structure LoopResult where
  /-- Whether the loop test found the close flag set, ending the loop. -/
  exited : Bool
  /-- How many times the body ran. -/
  iterations : Nat
  calls : List Call

/-- The loop `while (!glfwWindowShouldClose(window)) { ... }`, run on the
recorded inputs.  When the inputs run out while the window is still open the
result has `exited = false`: the loop is still running. -/
def renderLoop (env : Env) (h : Handles) : LoopState → List FrameInput → LoopResult
  | st, [] => ⟨st.shouldClose, 0, [.glfwWindowShouldClose h.window]⟩
  | st, inp :: rest =>
    if st.shouldClose then
      ⟨true, 0, [.glfwWindowShouldClose h.window]⟩
    else
      let body := frame env h st inp
      let next := renderLoop env h body.1 rest
      ⟨next.exited, next.iterations + 1,
        .glfwWindowShouldClose h.window :: body.2 ++ next.calls⟩

/-! ## `main` (lines 183-286) -/

/-- How a run of `main` ends. -/
inductive Outcome
  /-- The statement `return status;` on a line of `main.c`. -/
  | returned (line : Nat) (status : Int)
  /-- A call with undefined behaviour: `memcpy` outside a buffer. -/
  | undefined
  /-- The recorded inputs ran out inside the render loop. -/
  | running
  deriving DecidableEq

/-- The exit status of a run that returned. -/
def Outcome.status : Outcome → Option Int
  | .returned _ status => some status
  | _ => none

/-- The local `vertex_shader_path` of `main`. -/
def vertex_shader_path : String := "texture.vs"
/-- The local `fragment_shader_path` of `main`. -/
def fragment_shader_path : String := "texture.fs"

/-- The `memcpy` calls of the crop loop, as events. -/
def cropCalls (width n_channels : Nat) : List Call :=
  (List.range crop_height).map fun y =>
    .memcpy (cropDst n_channels y) (cropSrc width n_channels y) (cropLen n_channels)

/-- The call `init_window(256, 240, "ScrollGL")` of line 194. -/
def windowCall (env : Env) : Option Nat × List Call :=
  init_window env 256 240 "ScrollGL"

/-- The call `init_shader(GL_VERTEX_SHADER, vertex_shader_path, &vertex_shader)`
of line 198. -/
def vertexShaderCall (env : Env) : OutResult :=
  init_shader env .GL_VERTEX_SHADER vertex_shader_path

/-- The call `init_shader(GL_FRAGMENT_SHADER, fragment_shader_path, &fragment_shader)`
of line 200. -/
def fragmentShaderCall (env : Env) : OutResult :=
  init_shader env .GL_FRAGMENT_SHADER fragment_shader_path

/-- The call `link_program(vertex_shader, fragment_shader, &shader_program)` of
line 202. -/
def linkCall (env : Env) : OutResult :=
  link_program env (vertexShaderCall env).out (fragmentShaderCall env).out

/-- The call `bind_VAO_22(&VAO, &VBO, vertices, sizeof(vertices))` of line 209. -/
def vaoCall (env : Env) : Int × List Call :=
  bind_VAO_22 env.genVertexArray env.genBuffer vertices sizeof_vertices

/-- Every call of lines 194-209 when none of their tests returns. -/
def setupCalls (env : Env) : List Call :=
  (windowCall env).2 ++ (vertexShaderCall env).calls ++ (fragmentShaderCall env).calls ++
    (linkCall env).calls ++
    [.glDeleteShader (vertexShaderCall env).out, .glDeleteShader (fragmentShaderCall env).out,
     .glGenVertexArrays 1, .glGenBuffers 1] ++
    (vaoCall env).2

/-- The buffer `cropped_img` after lines 220-229: `none` when `malloc` returns
`NULL` or a `memcpy` of the crop loop leaves a buffer. -/
def cropCall (env : Env) (img : Image) : Option (List Byte) :=
  env.malloc.bind fun block =>
    cropLoop img.data img.width img.n_channels ((List.range cropped_size).map block)

/-- Every call of lines 194-229 when `stbi_load` returns `img`. -/
def cropTrace (env : Env) (img : Image) : List Call :=
  setupCalls env ++ [.stbi_load "tileset.png", .malloc cropped_size] ++
    cropCalls img.width img.n_channels

/-- The call `bind_texture_data(&texture, GL_RGBA, GL_RGBA, cropped_img,
crop_width, crop_height)` of line 232. -/
def textureCall (env : Env) (cropped_img : List Byte) : Int × List Call :=
  bind_texture_data env.genTexture .GL_RGBA .GL_RGBA cropped_img crop_width crop_height

/-- Every call of lines 194-232. -/
def textureTrace (env : Env) (img : Image) (cropped_img : List Byte) : List Call :=
  cropTrace env img ++ [.glGenTextures 1] ++ (textureCall env cropped_img).2

/-- Every call of lines 194-237, up to the render loop. -/
def preLoopCalls (env : Env) (img : Image) (cropped_img : List Byte) : List Call :=
  textureTrace env img cropped_img ++
    [.stbi_image_free, .glUseProgram (linkCall env).out,
     .glGetUniformLocation (linkCall env).out "ourTexture",
     .glUniform1i (env.uniformLocation (linkCall env).out "ourTexture") 0]

/-- The render loop as `main` runs it: `deltaTime = lastFrame = 0`, the close
flag of the new window not set. -/
def loopCall (env : Env) (window : Nat) : LoopResult :=
  renderLoop env ⟨window, (linkCall env).out, env.genVertexArray, env.genTexture⟩
    ⟨false, 0, 0⟩ env.frames

/-- The calls of lines 280-284, after the render loop. -/
def shutdownCalls (env : Env) : List Call :=
  [.glDeleteVertexArrays 1 env.genVertexArray, .glDeleteBuffers 1 env.genBuffer,
   .glDeleteProgram (linkCall env).out, .glfwTerminate]

/-- The function `main`: how the run ends and every library call it makes, in
order. -/
def main (env : Env) : Outcome × List Call :=
  match (windowCall env).1 with
  | none => (.returned 196 (-1), (windowCall env).2)
  | some window =>
  if (vertexShaderCall env).ret = 0 then
    (.returned 199 (-1), (windowCall env).2 ++ (vertexShaderCall env).calls) else
  if (fragmentShaderCall env).ret = 0 then
    (.returned 201 (-1), (windowCall env).2 ++ (vertexShaderCall env).calls ++
      (fragmentShaderCall env).calls) else
  if (linkCall env).ret = 0 then
    (.returned 203 (-1), (windowCall env).2 ++ (vertexShaderCall env).calls ++
      (fragmentShaderCall env).calls ++ (linkCall env).calls) else
  if (vaoCall env).1 = 0 then (.returned 210 (-1), setupCalls env) else
  match env.stbi_load "tileset.png" with
  | none =>
    (.returned 218 0,
      setupCalls env ++ [.stbi_load "tileset.png", .fprintf "Failed image load\n"])
  | some img =>
  match cropCall env img with
  | none => (.undefined, cropTrace env img)
  | some cropped_img =>
  if (textureCall env cropped_img).1 = 0 then
    (.returned 233 (-1), textureTrace env img cropped_img) else
  if (loopCall env window).exited then
    (.returned 285 0,
      preLoopCalls env img cropped_img ++ (loopCall env window).calls ++ shutdownCalls env)
  else
    (.running, preLoopCalls env img cropped_img ++ (loopCall env window).calls)

/-- The setup steps of `main`, in program order. -/
inductive Step
  | window | vertexShader | fragmentShader | link | vertexArray | image | crop | texture
  deriving DecidableEq, Repr

/-- The step a call belongs to, for the one call that each step makes on every
path through it: `glfwCreateWindow` for `init_window`, `glCreateShader` for
`init_shader`, `glCreateProgram` for `link_program`, `glBufferData` for
`bind_VAO_22`, `stbi_load`, `malloc` for the crop, `glTexImage2D` for
`bind_texture_data`. -/
def Call.step : Call → Option Step
  | .glfwCreateWindow _ _ _ => some .window
  | .glCreateShader .GL_VERTEX_SHADER => some .vertexShader
  | .glCreateShader .GL_FRAGMENT_SHADER => some .fragmentShader
  | .glCreateProgram => some .link
  | .glBufferData _ _ _ _ => some .vertexArray
  | .stbi_load _ => some .image
  | .malloc _ => some .crop
  | .glTexImage2D _ _ _ _ _ _ _ _ _ => some .texture
  | _ => none

/-- The setup steps a trace went through, in order, one entry per time a step ran. -/
def steps (calls : List Call) : List Step := calls.filterMap Call.step

/-- Whether a call is `glfwGetTime`, the first call of every iteration of the
render loop. -/
def Call.isFrameStart : Call → Bool
  | .glfwGetTime => true
  | _ => false

/-- Whether a call is one that only the render loop makes: its test, the first
call of its body, or a draw call. -/
def Call.inLoop (c : Call) : Bool := c.isLoopTest || c.isFrameStart || c.isDraw

/-! ## Reading the trace -/

/-- The attribute layouts a trace declares with `glVertexAttribPointer`:
`(index, size, stride, pointer)`, in call order. -/
def attribLayout : List Call → List (Nat × Nat × Nat × Nat)
  | [] => []
  | .glVertexAttribPointer index size _ _ stride pointer :: cs =>
    (index, size, stride, pointer) :: attribLayout cs
  | _ :: cs => attribLayout cs

/-- The buffer sizes a trace passes to `glBufferData`. -/
def bufferSizes : List Call → List Nat
  | [] => []
  | .glBufferData _ size _ _ :: cs => size :: bufferSizes cs
  | _ :: cs => bufferSizes cs

/-- The draw calls of a trace: `(mode, first, count)`. -/
def drawCalls : List Call → List (GLenum × Nat × Nat)
  | [] => []
  | .glDrawArrays mode first count :: cs => (mode, first, count) :: drawCalls cs
  | _ :: cs => drawCalls cs

/-- OpenGL's attribute fetch for `GL_FLOAT` data: component `k` of the
attribute of vertex `i` is the float at byte offset
`pointer + i * stride + k * sizeof(float)` of the buffer. -/
def fetchAttrib (buffer : List ℚ) (size stride pointer i : Nat) : List ℚ :=
  (List.range size).map fun k =>
    buffer.getD ((pointer + i * stride + k * sizeof_float) / sizeof_float) 0

/-- The position attribute (index 0 of `bind_VAO_22`) of vertex `i` of `vertices`. -/
def position (i : Nat) : List ℚ :=
  fetchAttrib vertices 2 (4 * sizeof_float) 0 i

/-- The texture-coordinate attribute (index 1 of `bind_VAO_22`) of vertex `i`
of `vertices`. -/
def texCoord (i : Nat) : List ℚ :=
  fetchAttrib vertices 2 (4 * sizeof_float) (2 * sizeof_float) i

/-- The point `p` lies in the closed triangle with corners `a`, `b`, `c`: it is
a convex combination of the corners. -/
def inTriangle (a b c p : List ℚ) : Prop :=
  ∃ u v w : ℚ, 0 ≤ u ∧ 0 ≤ v ∧ 0 ≤ w ∧ u + v + w = 1 ∧
    p = [u * a.getD 0 0 + v * b.getD 0 0 + w * c.getD 0 0,
         u * a.getD 1 0 + v * b.getD 1 0 + w * c.getD 1 0]

/-- The point `p` lies in triangle `t` of a `GL_TRIANGLES` draw starting at
vertex `first`: the triangle of vertices `first + 3 t`, `first + 3 t + 1`,
`first + 3 t + 2`. -/
def inDrawnTriangle (first t : Nat) (p : List ℚ) : Prop :=
  inTriangle (position (first + 3 * t)) (position (first + 3 * t + 1))
    (position (first + 3 * t + 2)) p

/-! ## A sample run -/

/-- A run in which every setup step succeeds, `tileset.png` decodes to a 16x16
RGBA image, and escape is pressed during the second frame. -/
def sampleEnv : Env where
  createWindow := some 1
  gladLoaded := true
  readFile := fun _ => some "#version 330 core"
  what := fun _ => "basic_ios::clear"
  createShader := fun t => if t = .GL_VERTEX_SHADER then 1 else 2
  compileStatus := fun _ _ => 1
  shaderInfoLog := fun _ _ => ""
  createProgram := 3
  linkStatus := fun _ _ => 1
  programInfoLog := ""
  genVertexArray := 1
  genBuffer := 1
  stbi_load := fun _ => some ⟨16, 16, 4, List.replicate 1024 255⟩
  malloc := some fun _ => 0
  genTexture := 1
  uniformLocation := fun _ _ => 0
  frames := [⟨0, false, false⟩, ⟨1 / 60, true, false⟩]

/-- The sample run, except that `stbi_load` fails. -/
def sampleEnvNoImage : Env := { sampleEnv with stbi_load := fun _ => none }

/-- The sample run, except that no shader file can be read. -/
def sampleEnvNoFile : Env := { sampleEnv with readFile := fun _ => none }

/-- The handles of the sample run. -/
def sampleHandles : Handles := ⟨1, 3, 1, 1⟩

/-- The order in which `main` goes through its setup steps. -/
def allSteps : List Step :=
  [.window, .vertexShader, .fragmentShader, .link, .vertexArray, .image, .crop, .texture]

/-! # Theorems -/

/-! ## `memcpy` and the crop loop -/

theorem memcpy_length {dst src out : List Byte} {d s len : Nat}
    (h : memcpy dst d src s len = some out) : out.length = dst.length := by
  unfold memcpy at h
  split at h
  · cases h
    simp
  · cases h

theorem memcpy_getElem? {dst src out : List Byte} {d s len : Nat}
    (h : memcpy dst d src s len = some out) (j : Nat) :
    out[j]? = if d ≤ j ∧ j < d + len then src[s + (j - d)]? else dst[j]? := by
  unfold memcpy at h
  split at h
  next hb =>
    cases h
    by_cases hj : j < dst.length
    · rw [List.getElem?_map, List.getElem?_range hj]
      by_cases hw : d ≤ j ∧ j < d + len
      · have : s + (j - d) < src.length := by omega
        simp [hw, List.getD_eq_getElem?_getD, List.getElem?_eq_getElem this]
      · simp [hw, List.getD_eq_getElem?_getD, List.getElem?_eq_getElem hj]
    · have h1 : ¬ (d ≤ j ∧ j < d + len) := by omega
      have e1 : dst[j]? = none := List.getElem?_eq_none (by omega)
      rw [if_neg h1, e1]
      apply List.getElem?_eq_none
      simp only [List.length_map, List.length_range]
      omega
  · cases h

theorem cropDst_succ (n y : Nat) : cropDst n (y + 1) = cropDst n y + cropLen n := by
  simp only [cropDst, cropLen, crop_width]
  ring

theorem cropDst_mono (n : Nat) {y k : Nat} (h : y < k) :
    cropDst n y + cropLen n ≤ cropDst n k := by
  rw [← cropDst_succ]
  simp only [cropDst, crop_width]
  exact Nat.mul_le_mul_right _ (Nat.mul_le_mul_right _ h)

/-- The first `k` rows of the loop: when their reads and writes are in bounds
they all run, and leave row `y` of the source window in row `y` of the
destination. -/
theorem cropRows_spec (data : List Byte) (width n : Nat) (buf : List Byte) (k : Nat)
    (hr : ∀ y, y < k → cropSrc width n y + cropLen n ≤ data.length)
    (hw : ∀ y, y < k → cropDst n y + cropLen n ≤ buf.length) :
    ∃ out, (List.range k).foldlM (cropRow data width n) buf = some out ∧
      out.length = buf.length ∧
      ∀ y, y < k → ∀ i, i < cropLen n →
        out[cropDst n y + i]? = data[cropSrc width n y + i]? := by
  induction k with
  | zero => exact ⟨buf, by simp, rfl, by intro y hy; omega⟩
  | succ k ih =>
    obtain ⟨mid, hmid, hlen, hrows⟩ :=
      ih (fun y hy => hr y (by omega)) (fun y hy => hw y (by omega))
    have hb : cropSrc width n k + cropLen n ≤ data.length ∧
        cropDst n k + cropLen n ≤ mid.length := ⟨hr k (by omega), hlen ▸ hw k (by omega)⟩
    have hstep : cropRow data width n mid k = memcpy mid (cropDst n k) data
        (cropSrc width n k) (cropLen n) := rfl
    obtain ⟨out, hout⟩ : ∃ out, cropRow data width n mid k = some out := by
      rw [hstep]
      unfold memcpy
      rw [if_pos hb]
      exact ⟨_, rfl⟩
    refine ⟨out, ?_, ?_, ?_⟩
    · rw [List.range_succ, List.foldlM_append, hmid]
      simpa using hout
    · rw [hstep] at hout
      rw [memcpy_length hout, hlen]
    · intro y hy i hi
      rw [hstep] at hout
      rw [memcpy_getElem? hout]
      by_cases hyk : y = k
      · subst hyk
        rw [if_pos (by omega)]
        congr 1
        omega
      · have hlt : y < k := by omega
        have := cropDst_mono n hlt
        rw [if_neg (by omega)]
        exact hrows y hlt i hi

theorem mem_cropReads {width n o : Nat} :
    o ∈ cropReads width n ↔ ∃ y, y < 16 ∧ ∃ i, i < 16 * n ∧ o = y * width * n + i := by
  simp only [cropReads, cropSrc, cropLen, crop_height, crop_width, crop_x, crop_y,
    List.mem_flatMap, List.mem_map, List.mem_range, Nat.add_zero]
  constructor
  · rintro ⟨y, hy, i, hi, rfl⟩
    exact ⟨y, hy, i, hi, rfl⟩
  · rintro ⟨y, hy, i, hi, rfl⟩
    exact ⟨y, hy, i, hi, rfl⟩

/-- Row `y` of the source window ends inside `data` when the image is large enough. -/
theorem cropSrc_in_bounds {width height n y : Nat} (hb : 15 * width + 16 ≤ width * height)
    (hy : y < 16) : cropSrc width n y + cropLen n ≤ width * height * n := by
  simp only [cropSrc, cropLen, crop_width, crop_x, crop_y, Nat.add_zero]
  have h1 : y * width ≤ 15 * width := Nat.mul_le_mul_right width (by omega)
  have h2 : (y * width + 16) * n ≤ width * height * n :=
    Nat.mul_le_mul_right n (by omega)
  rw [Nat.add_mul] at h2
  exact h2

/-- Row `y` of the destination ends inside the 1024 allocated bytes when `n ≤ 4`. -/
theorem cropDst_in_bounds {n y : Nat} (hn : n ≤ 4) (hy : y < 16) :
    cropDst n y + cropLen n ≤ cropped_size := by
  rw [← cropDst_succ]
  simp only [cropDst, crop_width, cropped_size]
  calc (y + 1) * 16 * n ≤ 16 * 16 * n :=
        Nat.mul_le_mul_right n (Nat.mul_le_mul_right 16 (by omega))
    _ ≤ 16 * 16 * 4 := Nat.mul_le_mul_left _ hn

/-- When the first `k` rows all run, each of them was in bounds. -/
theorem cropRows_bounds (data : List Byte) (width n : Nat) (buf : List Byte) (k : Nat)
    (out : List Byte) (h : (List.range k).foldlM (cropRow data width n) buf = some out) :
    out.length = buf.length ∧
      ∀ y, y < k → cropSrc width n y + cropLen n ≤ data.length ∧
        cropDst n y + cropLen n ≤ buf.length := by
  induction k generalizing out with
  | zero =>
    simp only [List.range_zero, List.foldlM_nil] at h
    cases h
    exact ⟨rfl, by intro y hy; omega⟩
  | succ k ih =>
    rw [List.range_succ, List.foldlM_append] at h
    cases hmid : (List.range k).foldlM (cropRow data width n) buf with
    | none => simp [hmid] at h
    | some mid =>
      rw [hmid] at h
      have hrow : memcpy mid (cropDst n k) data (cropSrc width n k) (cropLen n) = some out := by
        simpa [cropRow] using h
      obtain ⟨hlen, hprev⟩ := ih mid hmid
      refine ⟨by rw [memcpy_length hrow, hlen], ?_⟩
      intro y hy
      by_cases hyk : y = k
      · subst hyk
        unfold memcpy at hrow
        split at hrow
        next hb => exact ⟨hb.1, hlen ▸ hb.2⟩
        · cases hrow
      · exact hprev y (by omega)

/-- When the loop runs to its end on a buffer of `width * height * n` bytes,
`n ≥ 1`, the last row it read ended inside the buffer. -/
theorem cropLoop_bound_of_isSome {width height n : Nat} (hn : 1 ≤ n)
    {data cropped_img : List Byte} (hdata : data.length = width * height * n)
    (hsome : (cropLoop data width n cropped_img).isSome = true) :
    15 * width + 16 ≤ width * height := by
  obtain ⟨out, hout⟩ := Option.isSome_iff_exists.1 hsome
  have hb := (cropRows_bounds data width n cropped_img 16 out hout).2 15 (by omega)
  have h1 := hb.1
  rw [hdata] at h1
  simp only [cropSrc, cropLen, crop_width, crop_x, crop_y, Nat.add_zero] at h1
  rw [← Nat.add_mul] at h1
  exact Nat.le_of_mul_le_mul_right h1 (by omega)

theorem main_of_crop_fail (env : Env) (img : Image) (hw : (windowCall env).1 ≠ none)
    (hvs : (vertexShaderCall env).ret ≠ 0) (hfs : (fragmentShaderCall env).ret ≠ 0)
    (hlp : (linkCall env).ret ≠ 0) (himg : env.stbi_load "tileset.png" = some img)
    (hcrop : cropCall env img = none) :
    main env = (.undefined, cropTrace env img) := by
  obtain ⟨window, hw⟩ := Option.ne_none_iff_exists'.1 hw
  have hvao : (vaoCall env).1 ≠ 0 := by simp [vaoCall, bind_VAO_22]
  unfold main
  rw [hw]
  simp [hvs, hfs, hlp, hvao, himg, hcrop]

/-- A decoded 8x8 image makes the crop of `main` undefined, whatever `malloc`
returns. -/
theorem cropCall_small (env : Env) (img : Image) (hd : img.decodable)
    (hw : img.width = 8) (hh : img.height = 8) : cropCall env img = none := by
  obtain ⟨_, _, hn1, _, hdata⟩ := hd
  unfold cropCall
  cases env.malloc with
  | none => rfl
  | some block =>
    show cropLoop img.data img.width img.n_channels
      ((List.range cropped_size).map block) = none
    cases hc : cropLoop img.data img.width img.n_channels
        ((List.range cropped_size).map block) with
    | none => rfl
    | some out =>
      have := cropLoop_bound_of_isSome hn1 hdata (Option.isSome_iff_exists.2 ⟨out, hc⟩)
      rw [hw, hh] at this
      omega

/-- C1: for a decoded image at least 16 wide and 16 high with at most 4
channels (`data` holding `width * height * n_channels` bytes) and a destination
of `16 * 16 * 4` bytes, the crop loop runs to its end, and afterwards byte
`(y * 16 + x) * n + c` of `cropped_img` is byte `((y + 0) * width + (x + 0)) * n + c`
of `data`, for every row `y < 16`, column `x < 16` and channel `c < n`: the
top-left 16x16 tile.  (`c < n` already forces `1 ≤ n`.) -/
theorem crop_extracts_top_left_tile (img : Image) (cropped_img : List Byte)
    (hw : 16 ≤ img.width) (hh : 16 ≤ img.height) (hn : img.n_channels ≤ 4)
    (hdata : img.data.length = img.width * img.height * img.n_channels)
    (hbuf : cropped_img.length = cropped_size) :
    ∃ out, cropLoop img.data img.width img.n_channels cropped_img = some out ∧
      out.length = cropped_size ∧
      ∀ y x c, y < 16 → x < 16 → c < img.n_channels →
        ∃ b, out[(y * 16 + x) * img.n_channels + c]? = some b ∧
          img.data[((y + crop_y) * img.width + (x + crop_x)) * img.n_channels + c]? = some b := by
  have hb : 15 * img.width + 16 ≤ img.width * img.height := by
    have := Nat.mul_le_mul_left img.width hh
    omega
  obtain ⟨out, hout, hlen, hrows⟩ := cropRows_spec img.data img.width img.n_channels
    cropped_img 16
    (fun y hy => hdata ▸ cropSrc_in_bounds hb hy)
    (fun y hy => hbuf ▸ cropDst_in_bounds hn hy)
  refine ⟨out, hout, hlen.trans hbuf, ?_⟩
  intro y x c hy hx hc
  have hi : x * img.n_channels + c < cropLen img.n_channels := by
    simp only [cropLen, crop_width]
    have : (x + 1) * img.n_channels ≤ 16 * img.n_channels :=
      Nat.mul_le_mul_right _ (by omega)
    rw [Nat.add_mul] at this
    omega
  have hrow := hrows y hy _ hi
  have e1 : (y * 16 + x) * img.n_channels + c =
      cropDst img.n_channels y + (x * img.n_channels + c) := by
    simp only [cropDst, crop_width]
    ring
  have e2 : ((y + crop_y) * img.width + (x + crop_x)) * img.n_channels + c =
      cropSrc img.width img.n_channels y + (x * img.n_channels + c) := by
    simp only [cropSrc, crop_x, crop_y]
    ring
  have hlt : cropSrc img.width img.n_channels y + (x * img.n_channels + c) <
      img.data.length := by
    have := cropSrc_in_bounds (n := img.n_channels) hb hy
    omega
  rw [e1, e2, hrow]
  exact ⟨img.data[cropSrc img.width img.n_channels y + (x * img.n_channels + c)],
    List.getElem?_eq_getElem hlt, List.getElem?_eq_getElem hlt⟩

/-- C1 at a concrete input: a 16x16 image of one channel. -/
theorem crop_extracts_top_left_tile_witness :
    ∃ out, cropLoop (List.replicate 256 7) 16 1 (List.replicate 1024 0) = some out ∧
      out.length = cropped_size ∧
      ∀ y x c, y < 16 → x < 16 → c < 1 →
        ∃ b, out[(y * 16 + x) * 1 + c]? = some b ∧
          (List.replicate 256 7)[((y + crop_y) * 16 + (x + crop_x)) * 1 + c]? = some b :=
  crop_extracts_top_left_tile ⟨16, 16, 1, List.replicate 256 7⟩ (List.replicate 1024 0)
    (by decide) (by decide) (by decide) (List.length_replicate 256 7)
    (List.length_replicate 1024 0)

/-- C2: the copy is unchecked.  For `n ≥ 1` channels, every offset the loop
reads lies below `width * height * n` exactly when
`15 * width + 16 ≤ width * height`; this holds for every image at least 16 wide
and 16 high, and fails for an 8x8 image, where some read lies at or past the
end of the buffer.  The loop itself tests nothing: on a buffer of
`width * height * n` bytes (and a 1024-byte destination, `n ≤ 4`) it runs to
its end exactly when that inequality holds, and is undefined otherwise; and
`main` does not return before the loop for a small image: once setup has
succeeded and `stbi_load` has decoded an 8x8 image, the run is undefined. -/
theorem crop_reads_in_bounds_iff (width height n : Nat) (hn : 1 ≤ n) :
    ((∀ o ∈ cropReads width n, o < width * height * n) ↔
        15 * width + 16 ≤ width * height) ∧
      (16 ≤ width → 16 ≤ height → ∀ o ∈ cropReads width n, o < width * height * n) ∧
      (∃ o ∈ cropReads 8 n, 8 * 8 * n ≤ o) ∧
      (∀ data cropped_img : List Byte, data.length = width * height * n →
        cropped_img.length = cropped_size → n ≤ 4 →
        ((cropLoop data width n cropped_img).isSome ↔
          15 * width + 16 ≤ width * height)) ∧
      (∀ (env : Env) (img : Image), (windowCall env).1 ≠ none →
        (vertexShaderCall env).ret ≠ 0 → (fragmentShaderCall env).ret ≠ 0 →
        (linkCall env).ret ≠ 0 → env.stbi_load "tileset.png" = some img →
        img.decodable → img.width = 8 → img.height = 8 →
        main env = (.undefined, cropTrace env img)) := by
  have key : (∀ o ∈ cropReads width n, o < width * height * n) ↔
      15 * width + 16 ≤ width * height := by
    constructor
    · intro h
      have h15 := h (15 * width * n + (16 * n - 1))
        (mem_cropReads.2 ⟨15, by omega, 16 * n - 1, by omega, rfl⟩)
      have h2 : (15 * width + 16) * n ≤ width * height * n := by
        rw [Nat.add_mul]
        omega
      exact Nat.le_of_mul_le_mul_right h2 (by omega)
    · intro hb o ho
      obtain ⟨y, hy, i, hi, rfl⟩ := mem_cropReads.1 ho
      have := cropSrc_in_bounds (n := n) hb hy
      simp only [cropSrc, cropLen, crop_width, crop_x, crop_y, Nat.add_zero] at this
      omega
  refine ⟨key, ?_, ?_, ?_, ?_⟩
  · intro hw hh
    refine key.2 ?_
    have := Nat.mul_le_mul_left width hh
    omega
  · exact ⟨15 * 8 * n + 0, mem_cropReads.2 ⟨15, by omega, 0, by omega, rfl⟩, by omega⟩
  rotate_left
  · intro env img hw hvs hfs hlp himg hd h8 h8'
    exact main_of_crop_fail env img hw hvs hfs hlp himg (cropCall_small env img hd h8 h8')
  · intro data cropped_img hdata hbuf hn4
    constructor
    · exact cropLoop_bound_of_isSome hn hdata
    · intro hb
      obtain ⟨out, hout, _⟩ := cropRows_spec data width n cropped_img 16
        (fun y hy => hdata ▸ cropSrc_in_bounds hb hy)
        (fun y hy => hbuf ▸ cropDst_in_bounds hn4 hy)
      exact Option.isSome_iff_exists.2 ⟨out, hout⟩

/-- C2 at a concrete input: an 8x8 image of one channel. -/
theorem crop_reads_in_bounds_iff_witness :
    ((∀ o ∈ cropReads 8 1, o < 8 * 8 * 1) ↔ 15 * 8 + 16 ≤ 8 * 8) ∧
      (16 ≤ 8 → 16 ≤ 8 → ∀ o ∈ cropReads 8 1, o < 8 * 8 * 1) ∧
      (∃ o ∈ cropReads 8 1, 8 * 8 * 1 ≤ o) ∧
      (∀ data cropped_img : List Byte, data.length = 8 * 8 * 1 →
        cropped_img.length = cropped_size → 1 ≤ 4 →
        ((cropLoop data 8 1 cropped_img).isSome ↔ 15 * 8 + 16 ≤ 8 * 8)) ∧
      (∀ (env : Env) (img : Image), (windowCall env).1 ≠ none →
        (vertexShaderCall env).ret ≠ 0 → (fragmentShaderCall env).ret ≠ 0 →
        (linkCall env).ret ≠ 0 → env.stbi_load "tileset.png" = some img →
        img.decodable → img.width = 8 → img.height = 8 →
        main env = (.undefined, cropTrace env img)) :=
  crop_reads_in_bounds_iff 8 8 1 (by decide)

theorem roundHalfEven_eq {x : ℚ} {m : ℤ} (h : |x - m| < 1 / 2) :
    binary32.roundHalfEven x = m := by
  rw [abs_lt] at h
  unfold binary32.roundHalfEven
  by_cases hx : (m : ℚ) ≤ x
  · have hf : ⌊x⌋ = m := by
      rw [Int.floor_eq_iff]
      constructor
      · exact hx
      · linarith
    rw [hf, if_pos (by linarith)]
  · have hf : ⌊x⌋ = m - 1 := by
      rw [Int.floor_eq_iff]
      push_cast
      constructor <;> linarith
    rw [hf]
    push_cast
    rw [if_neg (by linarith), if_pos (by linarith)]
    ring

theorem log_eq {q : ℚ} {e : ℤ} (h1 : (2 : ℚ) ^ e ≤ |q|) (h2 : |q| < (2 : ℚ) ^ (e + 1)) :
    Int.log 2 |q| = e := by
  have hpos : 0 < |q| := lt_of_lt_of_le (by positivity) h1
  have a := (@Int.zpow_le_iff_le_log ℚ _ _ 2 (by norm_num) e |q| hpos).1 h1
  have b := (@Int.lt_zpow_iff_log_lt ℚ _ _ 2 (by norm_num) (e + 1) |q| hpos).1 h2
  omega

theorem round_eq {q : ℚ} (e m : ℤ) (hmin : -126 ≤ e) (h1 : (2 : ℚ) ^ e ≤ |q|)
    (h2 : |q| < (2 : ℚ) ^ (e + 1)) (hm : |q / 2 ^ (e - 23) - m| < 1 / 2) :
    binary32.round q = m * 2 ^ (e - 23) := by
  have hq : q ≠ 0 := by
    intro h
    rw [h, abs_zero] at h1
    have : (0 : ℚ) < 2 ^ e := by positivity
    linarith
  have hu : binary32.ulp q = 2 ^ (e - 23) := by
    unfold binary32.ulp
    rw [log_eq h1 h2, max_eq_left hmin]
  unfold binary32.round
  rw [if_neg hq, hu, roundHalfEven_eq hm]

theorem round_eq_pos {q : ℚ} (e m : ℤ) (hmin : -126 ≤ e) (h1 : (2 : ℚ) ^ e ≤ q)
    (h2 : q < (2 : ℚ) ^ (e + 1))
    (hm : -(1 / 2) < q / 2 ^ (e - 23) - m ∧ q / 2 ^ (e - 23) - m < 1 / 2) :
    binary32.round q = m * 2 ^ (e - 23) := by
  have hpos : 0 < q := lt_of_lt_of_le (by positivity) h1
  exact round_eq e m hmin (by rwa [abs_of_pos hpos]) (by rwa [abs_of_pos hpos]) (abs_lt.2 hm)

/-- The rounding on known binary32 values: the literals `0.2f` and `0.3f` of
`glClearColor` are `0x3e4ccccd` and `0x3e99999a`, and a value half-way between
two neighbours goes to the one with an even significand. -/
theorem round_known_values :
    binary32.round (2 / 10) = 13421773 / 2 ^ 26 ∧
    binary32.round (3 / 10) = 10066330 / 2 ^ 25 ∧
    binary32.round (1 + 1 / 2 ^ 24) = 1 ∧
    binary32.round (1 + 3 / 2 ^ 24) = 1 + 1 / 2 ^ 22 := by
  have hu : ∀ q : ℚ, 1 ≤ q → q < 2 → binary32.ulp q = 2 ^ (-23 : ℤ) := by
    intro q h1 h2
    have hq : |q| = q := abs_of_pos (by linarith)
    unfold binary32.ulp
    rw [log_eq (e := 0) (by rw [hq]; simpa using h1) (by rw [hq]; simpa using h2)]
    rfl
  refine ⟨?_, ?_, ?_, ?_⟩
  · rw [round_eq_pos (-3) 13421773] <;> norm_num
  · rw [round_eq_pos (-2) 10066330] <;> norm_num
  · have hf : ⌊((1 + 1 / 2 ^ 24) / 2 ^ (-23 : ℤ) : ℚ)⌋ = 8388608 := by
      rw [Int.floor_eq_iff]
      norm_num
    unfold binary32.round
    rw [if_neg (by norm_num), hu _ (by norm_num) (by norm_num)]
    unfold binary32.roundHalfEven
    rw [hf]
    norm_num
  · have hf : ⌊((1 + 3 / 2 ^ 24) / 2 ^ (-23 : ℤ) : ℚ)⌋ = 8388609 := by
      rw [Int.floor_eq_iff]
      norm_num
    unfold binary32.round
    rw [if_neg (by norm_num), hu _ (by norm_num) (by norm_num)]
    unfold binary32.roundHalfEven
    rw [hf]
    norm_num

theorem renderLoop_closed (env : Env) (h : Handles) (st : LoopState)
    (inputs : List FrameInput) (hst : st.shouldClose = true) :
    renderLoop env h st inputs = ⟨true, 0, [.glfwWindowShouldClose h.window]⟩ := by
  cases inputs with
  | nil => simp [renderLoop, hst]
  | cons inp rest => simp [renderLoop, hst]

theorem renderLoop_open (env : Env) (h : Handles) (st : LoopState) (inp : FrameInput)
    (rest : List FrameInput) (hst : st.shouldClose = false) :
    renderLoop env h st (inp :: rest) =
      ⟨(renderLoop env h (frame env h st inp).1 rest).exited,
       (renderLoop env h (frame env h st inp).1 rest).iterations + 1,
       [.glfwWindowShouldClose h.window] ++ (frame env h st inp).2 ++
         (renderLoop env h (frame env h st inp).1 rest).calls⟩ := by
  simp [renderLoop, hst]

theorem position_values :
    position 0 = [0, 0] ∧ position 1 = [1, 0] ∧ position 2 = [1, 1] ∧
      position 3 = [1, 1] ∧ position 4 = [0, 1] ∧ position 5 = [0, 0] := by
  simp [position, fetchAttrib, vertices, sizeof_float, List.range_succ]

theorem texCoord_values :
    texCoord 0 = [0, 0] ∧ texCoord 1 = [1, 0] ∧ texCoord 2 = [1, 1] ∧
      texCoord 3 = [1, 1] ∧ texCoord 4 = [0, 1] ∧ texCoord 5 = [0, 0] := by
  simp [texCoord, fetchAttrib, vertices, sizeof_float, List.range_succ]

theorem drawCalls_frame (env : Env) (h : Handles) (st : LoopState) (inp : FrameInput) :
    drawCalls (frame env h st inp).2 = [(.GL_TRIANGLES, 0, 6)] := by
  cases inp with
  | mk time escape closeRequested =>
    cases escape <;> rfl

/-- The first drawn triangle is the half of the unit square below the diagonal. -/
theorem inDrawnTriangle_zero (x y : ℚ) :
    inDrawnTriangle 0 0 [x, y] ↔ 0 ≤ y ∧ y ≤ x ∧ x ≤ 1 := by
  obtain ⟨p0, p1, p2, _, _, _⟩ := position_values
  simp only [inDrawnTriangle, inTriangle, Nat.mul_zero, Nat.add_zero, Nat.zero_add, p0, p1, p2]
  constructor
  · rintro ⟨u, v, w, hu, hv, hw, hsum, hp⟩
    simp at hp
    obtain ⟨rfl, rfl⟩ := hp
    refine ⟨hw, ?_, ?_⟩ <;> linarith
  · rintro ⟨h0, h1, h2⟩
    refine ⟨1 - x, x - y, y, by linarith, by linarith, h0, by ring, ?_⟩
    simp

/-- The second drawn triangle is the half of the unit square above the diagonal. -/
theorem inDrawnTriangle_one (x y : ℚ) :
    inDrawnTriangle 0 1 [x, y] ↔ 0 ≤ x ∧ x ≤ y ∧ y ≤ 1 := by
  obtain ⟨_, _, _, p3, p4, p5⟩ := position_values
  simp only [inDrawnTriangle, inTriangle, Nat.mul_one, Nat.zero_add, p3, p4, p5]
  constructor
  · rintro ⟨u, v, w, hu, hv, hw, hsum, hp⟩
    simp at hp
    obtain ⟨rfl, rfl⟩ := hp
    refine ⟨hu, ?_, ?_⟩ <;> linarith
  · rintro ⟨h0, h1, h2⟩
    refine ⟨x, y - x, 1 - y, h0, by linarith, by linarith, by ring, ?_⟩
    simp

/-- C6: `vertices` holds 24 floats, 6 vertices of 4 floats each; `bind_VAO_22`
uploads all `sizeof(vertices) = 96` bytes and declares two attributes of 2
floats with a stride of 16 bytes (4 floats), at byte offsets 0 and 8 (2
floats); for every vertex the texture coordinate equals the position; every
coordinate is 0 or 1; the two triangles of the draw call (vertices 0-2 and
3-5) both contain the corners (0,0) and (1,1), and a point lies in one of them
exactly when it lies in the unit square; the draw call of a frame passes the
count 6. -/
theorem vertices_describe_unit_quad :
    vertices.length = 24 ∧ vertices.length = 6 * 4 ∧
      (∀ VAO VBO : Nat,
        attribLayout (bind_VAO_22 VAO VBO vertices sizeof_vertices).2 =
          [(0, 2, 4 * sizeof_float, 0), (1, 2, 4 * sizeof_float, 2 * sizeof_float)] ∧
        bufferSizes (bind_VAO_22 VAO VBO vertices sizeof_vertices).2 = [6 * (4 * sizeof_float)]) ∧
      (∀ i, i < 6 → texCoord i = position i) ∧
      (∀ q ∈ vertices, q = 0 ∨ q = 1) ∧
      (position 0 = [0, 0] ∧ position 2 = [1, 1] ∧ position 3 = [1, 1] ∧
        position 5 = [0, 0]) ∧
      (∀ x y : ℚ, (inDrawnTriangle 0 0 [x, y] ∨ inDrawnTriangle 0 1 [x, y]) ↔
        (0 ≤ x ∧ x ≤ 1 ∧ 0 ≤ y ∧ y ≤ 1)) ∧
      (∀ (env : Env) (h : Handles) (st : LoopState) (inp : FrameInput),
        drawCalls (frame env h st inp).2 = [(.GL_TRIANGLES, 0, vertices.length / 4)]) := by
  obtain ⟨p0, p1, p2, p3, p4, p5⟩ := position_values
  obtain ⟨t0, t1, t2, t3, t4, t5⟩ := texCoord_values
  refine ⟨rfl, rfl, fun _ _ => ⟨rfl, rfl⟩, ?_, ?_, ⟨p0, p2, p3, p5⟩, ?_, drawCalls_frame⟩
  · intro i hi
    have : i = 0 ∨ i = 1 ∨ i = 2 ∨ i = 3 ∨ i = 4 ∨ i = 5 := by omega
    rcases this with rfl | rfl | rfl | rfl | rfl | rfl
    · rw [t0, p0]
    · rw [t1, p1]
    · rw [t2, p2]
    · rw [t3, p3]
    · rw [t4, p4]
    · rw [t5, p5]
  · intro q hq
    simp only [vertices, List.mem_cons, List.mem_singleton, List.not_mem_nil, or_false] at hq
    tauto
  · intro x y
    rw [inDrawnTriangle_zero, inDrawnTriangle_one]
    constructor
    · rintro (⟨h0, h1, h2⟩ | ⟨h0, h1, h2⟩)
      · exact ⟨by linarith, h2, h0, by linarith⟩
      · exact ⟨h0, by linarith, by linarith, h2⟩
    · rintro ⟨hx0, hx1, hy0, hy1⟩
      rcases le_total y x with hyx | hxy
      · exact Or.inl ⟨hy0, hyx, hx1⟩
      · exact Or.inr ⟨hx0, hxy, hy1⟩

/-! ## The render loop -/

theorem drawCalls_append (a b : List Call) :
    drawCalls (a ++ b) = drawCalls a ++ drawCalls b := by
  induction a with
  | nil => rfl
  | cons c cs ih => cases c <;> simp [drawCalls, ih]

theorem drawCalls_cons_of_not_draw (c : Call) (cs : List Call) (h : c.isDraw = false) :
    drawCalls (c :: cs) = drawCalls cs := by
  cases c <;> first | rfl | simp [Call.isDraw] at h

theorem drawCalls_eq_nil {calls : List Call} (h : ∀ c ∈ calls, c.inLoop = false) :
    drawCalls calls = [] := by
  induction calls with
  | nil => rfl
  | cons c cs ih =>
    have hc := h c (List.mem_cons_self _ _)
    have hd : c.isDraw = false := by
      simp only [Call.inLoop, Bool.or_eq_false_iff] at hc
      exact hc.2
    rw [drawCalls_cons_of_not_draw c cs hd]
    exact ih fun d hd => h d (List.mem_cons_of_mem _ hd)

theorem countP_eq_zero_of_quiet {calls : List Call} (p : Call → Bool)
    (hp : ∀ c, p c = true → c.inLoop = true) (h : ∀ c ∈ calls, c.inLoop = false) :
    calls.countP p = 0 := by
  rw [List.countP_eq_zero]
  intro c hc hpc
  have := h c hc
  rw [hp c hpc] at this
  cases this

theorem isFrameStart_inLoop (c : Call) (h : c.isFrameStart = true) : c.inLoop = true := by
  simp [Call.inLoop, h]

theorem isLoopTest_inLoop (c : Call) (h : c.isLoopTest = true) : c.inLoop = true := by
  simp [Call.inLoop, h]

theorem countP_isFrameStart_frame (env : Env) (h : Handles) (st : LoopState)
    (inp : FrameInput) : (frame env h st inp).2.countP Call.isFrameStart = 1 := by
  cases inp with
  | mk time escape closeRequested =>
    cases escape <;> rfl

theorem drawCalls_renderLoop (env : Env) (h : Handles) (inputs : List FrameInput) :
    ∀ st, drawCalls (renderLoop env h st inputs).calls =
      List.replicate (renderLoop env h st inputs).iterations (.GL_TRIANGLES, 0, 6) := by
  induction inputs with
  | nil => intro st; rfl
  | cons inp rest ih =>
    intro st
    cases hst : st.shouldClose with
    | true => rw [renderLoop_closed env h st _ hst]; rfl
    | false =>
      rw [renderLoop_open env h st inp rest hst]
      have hnil : drawCalls [Call.glfwWindowShouldClose h.window] = [] := rfl
      show drawCalls ([Call.glfwWindowShouldClose h.window] ++ (frame env h st inp).2 ++
        (renderLoop env h (frame env h st inp).1 rest).calls) = _
      rw [drawCalls_append, drawCalls_append, drawCalls_frame, hnil, ih]
      rfl

theorem countP_isFrameStart_renderLoop (env : Env) (h : Handles) (inputs : List FrameInput) :
    ∀ st, (renderLoop env h st inputs).calls.countP Call.isFrameStart =
      (renderLoop env h st inputs).iterations := by
  induction inputs with
  | nil => intro st; rfl
  | cons inp rest ih =>
    intro st
    cases hst : st.shouldClose with
    | true => rw [renderLoop_closed env h st _ hst]; rfl
    | false =>
      rw [renderLoop_open env h st inp rest hst]
      have hnil : [Call.glfwWindowShouldClose h.window].countP Call.isFrameStart = 0 := rfl
      simp only [List.countP_append, countP_isFrameStart_frame, hnil, ih]
      omega

theorem frame_shouldClose (env : Env) (h : Handles) (st : LoopState) (inp : FrameInput) :
    (frame env h st inp).1.shouldClose =
      ((if inp.escape then true else st.shouldClose) || inp.closeRequested) := by
  cases inp with
  | mk time escape closeRequested =>
    cases escape <;> rfl

/-- While no input presses escape or requests closing, every recorded input
is consumed by one iteration. -/
theorem iterations_renderLoop_open (env : Env) (h : Handles) (inputs : List FrameInput)
    (hin : ∀ inp ∈ inputs, inp.escape = false ∧ inp.closeRequested = false) :
    ∀ st, st.shouldClose = false →
      (renderLoop env h st inputs).iterations = inputs.length ∧
        (renderLoop env h st inputs).exited = false := by
  induction inputs with
  | nil => intro st hst; exact ⟨rfl, hst⟩
  | cons inp rest ih =>
    intro st hst
    rw [renderLoop_open env h st inp rest hst]
    have h1 := hin inp (List.mem_cons_self _ _)
    have hnext : (frame env h st inp).1.shouldClose = false := by
      rw [frame_shouldClose, h1.1, h1.2, hst]
      rfl
    have := ih (fun i hi => hin i (List.mem_cons_of_mem _ hi)) _ hnext
    simp only [List.length_cons, this.1, this.2, and_self]

/-- An iteration whose input presses escape or requests closing is the last one:
it still runs in full, and the next loop test ends the loop. -/
theorem renderLoop_last (env : Env) (h : Handles) (st : LoopState) (inp : FrameInput)
    (rest : List FrameInput) (hst : st.shouldClose = false)
    (hclose : inp.escape = true ∨ inp.closeRequested = true) :
    renderLoop env h st (inp :: rest) =
      ⟨true, 1, [.glfwWindowShouldClose h.window] ++ (frame env h st inp).2 ++
        [.glfwWindowShouldClose h.window]⟩ := by
  have hnext : (frame env h st inp).1.shouldClose = true := by
    rw [frame_shouldClose]
    rcases hclose with he | hc
    · simp [he]
    · simp [hc]
  rw [renderLoop_open env h st inp rest hst, renderLoop_closed env h _ rest hnext]

/-! ## The helper functions -/

theorem init_window_quiet (env : Env) (width height : Nat) (title : String) :
    ∀ c ∈ (init_window env width height title).2, c.inLoop = false := by
  unfold init_window
  cases env.createWindow <;> cases env.gladLoaded <;>
    simp [Call.inLoop, Call.isDraw, Call.isLoopTest, Call.isFrameStart]

theorem init_window_steps (env : Env) (width height : Nat) (title : String) :
    steps (init_window env width height title).2 = [.window] := by
  unfold init_window
  cases env.createWindow <;> cases env.gladLoaded <;> rfl

theorem init_shader_quiet (env : Env) (shader_type : GLenum) (path : String) :
    ∀ c ∈ (init_shader env shader_type path).calls, c.inLoop = false := by
  unfold init_shader
  cases env.readFile path <;> dsimp only <;> split <;>
    simp [Call.inLoop, Call.isDraw, Call.isLoopTest, Call.isFrameStart]

theorem vertexShaderCall_steps (env : Env) :
    steps (vertexShaderCall env).calls = [.vertexShader] := by
  unfold vertexShaderCall init_shader
  cases env.readFile vertex_shader_path <;> dsimp only <;> split <;> rfl

theorem fragmentShaderCall_steps (env : Env) :
    steps (fragmentShaderCall env).calls = [.fragmentShader] := by
  unfold fragmentShaderCall init_shader
  cases env.readFile fragment_shader_path <;> dsimp only <;> split <;> rfl

theorem link_program_quiet (env : Env) (vertex_shader fragment_shader : Nat) :
    ∀ c ∈ (link_program env vertex_shader fragment_shader).calls, c.inLoop = false := by
  unfold link_program
  dsimp only
  split <;> simp [Call.inLoop, Call.isDraw, Call.isLoopTest, Call.isFrameStart]

theorem link_program_steps (env : Env) (vertex_shader fragment_shader : Nat) :
    steps (link_program env vertex_shader fragment_shader).calls = [.link] := by
  unfold link_program
  dsimp only
  split <;> rfl

theorem bind_VAO_22_quiet (VAO VBO : Nat) (v : List ℚ) (len : Nat) :
    ∀ c ∈ (bind_VAO_22 VAO VBO v len).2, c.inLoop = false := by
  simp [bind_VAO_22, Call.inLoop, Call.isDraw, Call.isLoopTest, Call.isFrameStart]

theorem bind_texture_data_quiet (texture : Nat) (f g : GLenum) (data : List Byte)
    (width height : Nat) :
    ∀ c ∈ (bind_texture_data texture f g data width height).2, c.inLoop = false := by
  simp [bind_texture_data, Call.inLoop, Call.isDraw, Call.isLoopTest, Call.isFrameStart]

theorem cropCalls_quiet (width n : Nat) : ∀ c ∈ cropCalls width n, c.inLoop = false := by
  intro c hc
  simp only [cropCalls, List.mem_map] at hc
  obtain ⟨y, _, rfl⟩ := hc
  rfl

theorem quiet_append {a b : List Call} (ha : ∀ c ∈ a, c.inLoop = false)
    (hb : ∀ c ∈ b, c.inLoop = false) : ∀ c ∈ a ++ b, c.inLoop = false := by
  intro c hc
  rcases List.mem_append.1 hc with h | h
  · exact ha c h
  · exact hb c h

theorem setupCalls_quiet (env : Env) : ∀ c ∈ setupCalls env, c.inLoop = false := by
  unfold setupCalls
  refine quiet_append (quiet_append (quiet_append (quiet_append (quiet_append
    (init_window_quiet env _ _ _) (init_shader_quiet env _ _)) (init_shader_quiet env _ _))
    (link_program_quiet env _ _)) ?_) (bind_VAO_22_quiet _ _ _ _)
  simp [Call.inLoop, Call.isDraw, Call.isLoopTest, Call.isFrameStart]

theorem preLoopCalls_quiet (env : Env) (img : Image) (cropped_img : List Byte) :
    ∀ c ∈ preLoopCalls env img cropped_img, c.inLoop = false := by
  unfold preLoopCalls textureTrace cropTrace
  refine quiet_append (quiet_append (quiet_append (quiet_append (quiet_append
    (setupCalls_quiet env) ?_) (cropCalls_quiet _ _)) ?_) (bind_texture_data_quiet _ _ _ _ _ _)) ?_
  all_goals simp [Call.inLoop, Call.isDraw, Call.isLoopTest, Call.isFrameStart]

theorem shutdownCalls_quiet (env : Env) : ∀ c ∈ shutdownCalls env, c.inLoop = false := by
  simp [shutdownCalls, Call.inLoop, Call.isDraw, Call.isLoopTest, Call.isFrameStart]

theorem steps_append (a b : List Call) : steps (a ++ b) = steps a ++ steps b :=
  List.filterMap_append _ _ _

theorem setupCalls_steps (env : Env) :
    steps (setupCalls env) = [.window, .vertexShader, .fragmentShader, .link, .vertexArray] := by
  unfold setupCalls
  rw [steps_append, steps_append, steps_append, steps_append, steps_append,
    vertexShaderCall_steps, fragmentShaderCall_steps]
  unfold windowCall linkCall
  rw [init_window_steps, link_program_steps]
  rfl

/-! ## `main` -/

/-- Every way a run of `main` can go, with the condition that selects it. -/
theorem main_cases (env : Env) :
    ((windowCall env).1 = none ∧ main env = (.returned 196 (-1), (windowCall env).2)) ∨
    ((windowCall env).1 ≠ none ∧ (vertexShaderCall env).ret = 0 ∧
      main env = (.returned 199 (-1), (windowCall env).2 ++ (vertexShaderCall env).calls)) ∨
    ((windowCall env).1 ≠ none ∧ (vertexShaderCall env).ret ≠ 0 ∧
      (fragmentShaderCall env).ret = 0 ∧
      main env = (.returned 201 (-1), (windowCall env).2 ++ (vertexShaderCall env).calls ++
        (fragmentShaderCall env).calls)) ∨
    ((windowCall env).1 ≠ none ∧ (vertexShaderCall env).ret ≠ 0 ∧
      (fragmentShaderCall env).ret ≠ 0 ∧ (linkCall env).ret = 0 ∧
      main env = (.returned 203 (-1), (windowCall env).2 ++ (vertexShaderCall env).calls ++
        (fragmentShaderCall env).calls ++ (linkCall env).calls)) ∨
    ((windowCall env).1 ≠ none ∧ (vertexShaderCall env).ret ≠ 0 ∧
      (fragmentShaderCall env).ret ≠ 0 ∧ (linkCall env).ret ≠ 0 ∧
      ((env.stbi_load "tileset.png" = none ∧
        main env = (.returned 218 0,
          setupCalls env ++ [.stbi_load "tileset.png", .fprintf "Failed image load\n"])) ∨
       (∃ img, env.stbi_load "tileset.png" = some img ∧ cropCall env img = none ∧
        main env = (.undefined, cropTrace env img)) ∨
       (∃ window img cropped_img, (windowCall env).1 = some window ∧
        env.stbi_load "tileset.png" = some img ∧ cropCall env img = some cropped_img ∧
        (((loopCall env window).exited = true ∧
          main env = (.returned 285 0, preLoopCalls env img cropped_img ++
            (loopCall env window).calls ++ shutdownCalls env)) ∨
         ((loopCall env window).exited = false ∧
          main env = (.running, preLoopCalls env img cropped_img ++
            (loopCall env window).calls)))))) := by
  unfold main
  cases hw : (windowCall env).1 with
  | none => exact Or.inl ⟨rfl, rfl⟩
  | some window =>
    right
    by_cases hvs : (vertexShaderCall env).ret = 0
    · exact Or.inl ⟨by simp, hvs, by simp [hvs]⟩
    right
    by_cases hfs : (fragmentShaderCall env).ret = 0
    · exact Or.inl ⟨by simp, hvs, hfs, by simp [hvs, hfs]⟩
    right
    by_cases hlp : (linkCall env).ret = 0
    · exact Or.inl ⟨by simp, hvs, hfs, hlp, by simp [hvs, hfs, hlp]⟩
    right
    refine ⟨by simp, hvs, hfs, hlp, ?_⟩
    have hvao : (vaoCall env).1 ≠ 0 := by simp [vaoCall, bind_VAO_22]
    simp only [hvs, hfs, hlp, hvao, if_false]
    cases himg : env.stbi_load "tileset.png" with
    | none => exact Or.inl ⟨rfl, rfl⟩
    | some img =>
      right
      cases hcrop : cropCall env img with
      | none => exact Or.inl ⟨img, rfl, hcrop, by simp [hcrop]⟩
      | some cropped_img =>
        right
        refine ⟨window, img, cropped_img, rfl, rfl, hcrop, ?_⟩
        have htex : (textureCall env cropped_img).1 ≠ 0 := by
          simp [textureCall, bind_texture_data]
        simp only [hcrop, htex, if_false]
        cases hloop : (loopCall env window).exited with
        | true => exact Or.inl ⟨rfl, by simp⟩
        | false => exact Or.inr ⟨rfl, by simp⟩

theorem draw_count_quiet {calls : List Call} (h : ∀ c ∈ calls, c.inLoop = false) :
    drawCalls calls =
      List.replicate (calls.countP Call.isFrameStart) (.GL_TRIANGLES, 0, 6) := by
  rw [drawCalls_eq_nil h, countP_eq_zero_of_quiet _ isFrameStart_inLoop h]
  rfl

theorem draw_count_loop {pre post : List Call} (hpre : ∀ c ∈ pre, c.inLoop = false)
    (hpost : ∀ c ∈ post, c.inLoop = false) (env : Env) (h : Handles) (st : LoopState)
    (inputs : List FrameInput) :
    drawCalls (pre ++ (renderLoop env h st inputs).calls ++ post) =
      List.replicate ((pre ++ (renderLoop env h st inputs).calls ++ post).countP
        Call.isFrameStart) (.GL_TRIANGLES, 0, 6) := by
  rw [drawCalls_append, drawCalls_append, drawCalls_eq_nil hpre, drawCalls_eq_nil hpost,
    List.countP_append, List.countP_append,
    countP_eq_zero_of_quiet _ isFrameStart_inLoop hpre,
    countP_eq_zero_of_quiet _ isFrameStart_inLoop hpost,
    drawCalls_renderLoop, countP_isFrameStart_renderLoop]
  simp

theorem failure_traces_quiet (env : Env) :
    (∀ c ∈ (windowCall env).2 ++ (vertexShaderCall env).calls, c.inLoop = false) ∧
    (∀ c ∈ (windowCall env).2 ++ (vertexShaderCall env).calls ++
      (fragmentShaderCall env).calls, c.inLoop = false) ∧
    (∀ c ∈ (windowCall env).2 ++ (vertexShaderCall env).calls ++
      (fragmentShaderCall env).calls ++ (linkCall env).calls, c.inLoop = false) ∧
    (∀ c ∈ setupCalls env ++ [.stbi_load "tileset.png", .fprintf "Failed image load\n"],
      c.inLoop = false) := by
  have hw := init_window_quiet env 256 240 "ScrollGL"
  have hvs := init_shader_quiet env .GL_VERTEX_SHADER vertex_shader_path
  have hfs := init_shader_quiet env .GL_FRAGMENT_SHADER fragment_shader_path
  have hlp := link_program_quiet env (vertexShaderCall env).out (fragmentShaderCall env).out
  refine ⟨quiet_append hw hvs, quiet_append (quiet_append hw hvs) hfs,
    quiet_append (quiet_append (quiet_append hw hvs) hfs) hlp,
    quiet_append (setupCalls_quiet env) ?_⟩
  simp [Call.inLoop, Call.isDraw, Call.isLoopTest, Call.isFrameStart]

theorem cropTrace_quiet (env : Env) (img : Image) :
    ∀ c ∈ cropTrace env img, c.inLoop = false := by
  unfold cropTrace
  refine quiet_append (quiet_append (setupCalls_quiet env) ?_) (cropCalls_quiet _ _)
  simp [Call.inLoop, Call.isDraw, Call.isLoopTest, Call.isFrameStart]

/-- In every run, the draw calls of `main` are one `glDrawArrays(GL_TRIANGLES, 0, 6)`
per iteration of the render loop that was started. -/
theorem drawCalls_main (env : Env) :
    drawCalls (main env).2 =
      List.replicate ((main env).2.countP Call.isFrameStart) (.GL_TRIANGLES, 0, 6) := by
  obtain ⟨q1, q2, q3, q4⟩ := failure_traces_quiet env
  rcases main_cases env with ⟨_, h⟩ | ⟨_, _, h⟩ | ⟨_, _, _, h⟩ | ⟨_, _, _, _, h⟩ |
    ⟨_, _, _, _, ⟨_, h⟩ | ⟨img, _, _, h⟩ | ⟨window, img, cropped, _, _, _, ⟨_, h⟩ | ⟨_, h⟩⟩⟩
  · rw [h]; exact draw_count_quiet (init_window_quiet env _ _ _)
  · rw [h]; exact draw_count_quiet q1
  · rw [h]; exact draw_count_quiet q2
  · rw [h]; exact draw_count_quiet q3
  · rw [h]; exact draw_count_quiet q4
  · rw [h]; exact draw_count_quiet (cropTrace_quiet env img)
  · rw [h]
    exact draw_count_loop (preLoopCalls_quiet env img cropped) (shutdownCalls_quiet env) _ _ _ _
  · rw [h]
    have := draw_count_loop (preLoopCalls_quiet env img cropped)
      (fun c (hc : c ∈ ([] : List Call)) => by simp at hc) env
      ⟨window, (linkCall env).out, env.genVertexArray, env.genTexture⟩ ⟨false, 0, 0⟩ env.frames
    simpa [loopCall] using this

/-- C4: every iteration of the render loop issues exactly one draw call,
`glDrawArrays(GL_TRIANGLES, 0, 6)`, whatever its state and its input (key
state, time) are.  So the draw calls of the loop are one per iteration that
ran, the iterations counted both by the loop and by its `glfwGetTime` calls;
while no input sets the close flag every recorded frame runs and draws; a
frame in which escape is pressed still draws before the loop ends; and the
same count holds for a whole run of `main`. -/
theorem one_draw_call_per_frame (env : Env) (h : Handles) (st : LoopState)
    (inputs : List FrameInput) :
    (∀ (st' : LoopState) (inp : FrameInput),
      drawCalls (frame env h st' inp).2 = [(.GL_TRIANGLES, 0, 6)]) ∧
    drawCalls (renderLoop env h st inputs).calls =
      List.replicate (renderLoop env h st inputs).iterations (.GL_TRIANGLES, 0, 6) ∧
    (renderLoop env h st inputs).calls.countP Call.isFrameStart =
      (renderLoop env h st inputs).iterations ∧
    (st.shouldClose = false →
      (∀ inp ∈ inputs, inp.escape = false ∧ inp.closeRequested = false) →
      drawCalls (renderLoop env h st inputs).calls =
        List.replicate inputs.length (.GL_TRIANGLES, 0, 6)) ∧
    (∀ (inp : FrameInput) (rest : List FrameInput), st.shouldClose = false →
      inp.escape = true →
      drawCalls (renderLoop env h st (inp :: rest)).calls = [(.GL_TRIANGLES, 0, 6)]) ∧
    drawCalls (main env).2 =
      List.replicate ((main env).2.countP Call.isFrameStart) (.GL_TRIANGLES, 0, 6) := by
  refine ⟨fun st' inp => drawCalls_frame env h st' inp, drawCalls_renderLoop env h inputs st,
    countP_isFrameStart_renderLoop env h inputs st, ?_, ?_, drawCalls_main env⟩
  · intro hst hin
    rw [drawCalls_renderLoop, (iterations_renderLoop_open env h inputs hin st hst).1]
  · intro inp rest hst hesc
    rw [drawCalls_renderLoop, renderLoop_last env h st inp rest hst (Or.inl hesc)]
    rfl

/-- C4 on the sample run: two frames without escape give two draw calls. -/
theorem one_draw_call_per_frame_witness :
    drawCalls (renderLoop sampleEnv sampleHandles ⟨false, 0, 0⟩
      [⟨0, false, false⟩, ⟨1, false, false⟩]).calls =
      List.replicate 2 (.GL_TRIANGLES, 0, 6) :=
  (one_draw_call_per_frame sampleEnv sampleHandles ⟨false, 0, 0⟩
    [⟨0, false, false⟩, ⟨1, false, false⟩]).2.2.2.1 rfl (by simp)

theorem steps_eq_nil {calls : List Call} (h : ∀ c ∈ calls, c.step = none) :
    steps calls = [] := by
  unfold steps
  rw [List.filterMap_eq_nil_iff]
  exact h

theorem steps_frame (env : Env) (h : Handles) (st : LoopState) (inp : FrameInput) :
    steps (frame env h st inp).2 = [] := by
  cases inp with
  | mk time escape closeRequested =>
    cases escape <;> rfl

theorem steps_renderLoop (env : Env) (h : Handles) (inputs : List FrameInput) :
    ∀ st, steps (renderLoop env h st inputs).calls = [] := by
  induction inputs with
  | nil => intro st; rfl
  | cons inp rest ih =>
    intro st
    cases hst : st.shouldClose with
    | true => rw [renderLoop_closed env h st _ hst]; rfl
    | false =>
      rw [renderLoop_open env h st inp rest hst]
      show steps ([Call.glfwWindowShouldClose h.window] ++ (frame env h st inp).2 ++
        (renderLoop env h (frame env h st inp).1 rest).calls) = _
      rw [steps_append, steps_append, steps_frame, ih]
      rfl

theorem steps_cropCalls (width n : Nat) : steps (cropCalls width n) = [] := by
  apply steps_eq_nil
  intro c hc
  simp only [cropCalls, List.mem_map] at hc
  obtain ⟨y, _, rfl⟩ := hc
  rfl

theorem steps_cropTrace (env : Env) (img : Image) :
    steps (cropTrace env img) =
      [.window, .vertexShader, .fragmentShader, .link, .vertexArray, .image, .crop] := by
  unfold cropTrace
  rw [steps_append, steps_append, setupCalls_steps, steps_cropCalls]
  rfl

theorem steps_preLoopCalls (env : Env) (img : Image) (cropped_img : List Byte) :
    steps (preLoopCalls env img cropped_img) = allSteps := by
  unfold preLoopCalls textureTrace
  rw [steps_append, steps_append, steps_append, steps_cropTrace]
  rfl

/-- In every run the setup steps are taken in program order, each at most once. -/
theorem steps_main_in_order (env : Env) : steps (main env).2 <+: allSteps := by
  rcases main_cases env with ⟨_, h⟩ | ⟨_, _, h⟩ | ⟨_, _, _, h⟩ | ⟨_, _, _, _, h⟩ |
    ⟨_, _, _, _, ⟨_, h⟩ | ⟨img, _, _, h⟩ | ⟨window, img, cropped, _, _, _, ⟨_, h⟩ | ⟨_, h⟩⟩⟩
  · rw [h]
    exact ⟨_, congrArg (· ++ _) (init_window_steps env 256 240 "ScrollGL")⟩
  · rw [h]
    refine ⟨[.fragmentShader, .link, .vertexArray, .image, .crop, .texture], ?_⟩
    show steps ((windowCall env).2 ++ _) ++ _ = _
    rw [steps_append, vertexShaderCall_steps]
    unfold windowCall
    rw [init_window_steps]
    rfl
  · rw [h]
    refine ⟨[.link, .vertexArray, .image, .crop, .texture], ?_⟩
    show steps ((windowCall env).2 ++ _ ++ _) ++ _ = _
    rw [steps_append, steps_append, vertexShaderCall_steps, fragmentShaderCall_steps]
    unfold windowCall
    rw [init_window_steps]
    rfl
  · rw [h]
    refine ⟨[.vertexArray, .image, .crop, .texture], ?_⟩
    show steps ((windowCall env).2 ++ _ ++ _ ++ _) ++ _ = _
    rw [steps_append, steps_append, steps_append, vertexShaderCall_steps,
      fragmentShaderCall_steps]
    unfold windowCall linkCall
    rw [init_window_steps, link_program_steps]
    rfl
  · rw [h]
    refine ⟨[.crop, .texture], ?_⟩
    show steps (setupCalls env ++ _) ++ _ = _
    rw [steps_append, setupCalls_steps]
    rfl
  · rw [h]
    refine ⟨[.texture], ?_⟩
    show steps (cropTrace env img) ++ _ = _
    rw [steps_cropTrace]
    rfl
  · rw [h]
    refine ⟨[], ?_⟩
    show steps (preLoopCalls env img cropped ++ _ ++ _) ++ _ = _
    rw [steps_append, steps_append, steps_preLoopCalls]
    unfold loopCall
    rw [steps_renderLoop]
    rfl
  · rw [h]
    refine ⟨[], ?_⟩
    show steps (preLoopCalls env img cropped ++ _) ++ _ = _
    rw [steps_append, steps_preLoopCalls]
    unfold loopCall
    rw [steps_renderLoop]
    rfl

/-- What `main` does when one of the five checked setup steps fails. -/
theorem main_of_failure (env : Env)
    (hfail : (windowCall env).1 = none ∨ (vertexShaderCall env).ret = 0 ∨
      (fragmentShaderCall env).ret = 0 ∨ (linkCall env).ret = 0 ∨
      env.stbi_load "tileset.png" = none) :
    (∃ line status, (main env).1 = .returned line status) ∧
      (∀ c ∈ (main env).2, c.inLoop = false) := by
  obtain ⟨q1, q2, q3, q4⟩ := failure_traces_quiet env
  rcases main_cases env with ⟨_, h⟩ | ⟨_, _, h⟩ | ⟨_, _, _, h⟩ | ⟨_, _, _, _, h⟩ |
    ⟨hw, hvs, hfs, hlp, ⟨_, h⟩ | ⟨img, himg, _, h⟩ |
      ⟨window, img, cropped, _, himg, _, _⟩⟩
  · rw [h]; exact ⟨⟨_, _, rfl⟩, init_window_quiet env _ _ _⟩
  · rw [h]; exact ⟨⟨_, _, rfl⟩, q1⟩
  · rw [h]; exact ⟨⟨_, _, rfl⟩, q2⟩
  · rw [h]; exact ⟨⟨_, _, rfl⟩, q3⟩
  · rw [h]; exact ⟨⟨_, _, rfl⟩, q4⟩
  · rcases hfail with h1 | h1 | h1 | h1 | h1
    · exact absurd h1 hw
    · exact absurd h1 hvs
    · exact absurd h1 hfs
    · exact absurd h1 hlp
    · rw [himg] at h1; cases h1
  · rcases hfail with h1 | h1 | h1 | h1 | h1
    · exact absurd h1 hw
    · exact absurd h1 hvs
    · exact absurd h1 hfs
    · exact absurd h1 hlp
    · rw [himg] at h1; cases h1

theorem main_of_window_fail (env : Env) (hw : (windowCall env).1 = none) :
    main env = (.returned 196 (-1), (windowCall env).2) := by
  unfold main
  rw [hw]

theorem main_of_vertex_fail (env : Env) (hw : (windowCall env).1 ≠ none)
    (hvs : (vertexShaderCall env).ret = 0) :
    main env = (.returned 199 (-1), (windowCall env).2 ++ (vertexShaderCall env).calls) := by
  obtain ⟨window, hw⟩ := Option.ne_none_iff_exists'.1 hw
  unfold main
  rw [hw]
  simp [hvs]

theorem main_of_fragment_fail (env : Env) (hw : (windowCall env).1 ≠ none)
    (hvs : (vertexShaderCall env).ret ≠ 0) (hfs : (fragmentShaderCall env).ret = 0) :
    main env = (.returned 201 (-1), (windowCall env).2 ++ (vertexShaderCall env).calls ++
      (fragmentShaderCall env).calls) := by
  obtain ⟨window, hw⟩ := Option.ne_none_iff_exists'.1 hw
  unfold main
  rw [hw]
  simp [hvs, hfs]

theorem main_of_link_fail (env : Env) (hw : (windowCall env).1 ≠ none)
    (hvs : (vertexShaderCall env).ret ≠ 0) (hfs : (fragmentShaderCall env).ret ≠ 0)
    (hlp : (linkCall env).ret = 0) :
    main env = (.returned 203 (-1), (windowCall env).2 ++ (vertexShaderCall env).calls ++
      (fragmentShaderCall env).calls ++ (linkCall env).calls) := by
  obtain ⟨window, hw⟩ := Option.ne_none_iff_exists'.1 hw
  unfold main
  rw [hw]
  simp [hvs, hfs, hlp]

theorem main_of_image_fail (env : Env) (hw : (windowCall env).1 ≠ none)
    (hvs : (vertexShaderCall env).ret ≠ 0) (hfs : (fragmentShaderCall env).ret ≠ 0)
    (hlp : (linkCall env).ret ≠ 0) (himg : env.stbi_load "tileset.png" = none) :
    main env = (.returned 218 0,
      setupCalls env ++ [.stbi_load "tileset.png", .fprintf "Failed image load\n"]) := by
  obtain ⟨window, hw⟩ := Option.ne_none_iff_exists'.1 hw
  have hvao : (vaoCall env).1 ≠ 0 := by simp [vaoCall, bind_VAO_22]
  unfold main
  rw [hw]
  simp [hvs, hfs, hlp, hvao, himg]

theorem main_of_loop_exit (env : Env) (window : Nat) (img : Image)
    (hw : (windowCall env).1 = some window)
    (hvs : (vertexShaderCall env).ret ≠ 0) (hfs : (fragmentShaderCall env).ret ≠ 0)
    (hlp : (linkCall env).ret ≠ 0) (himg : env.stbi_load "tileset.png" = some img)
    (hcrop : (cropCall env img).isSome = true)
    (hloop : (loopCall env window).exited = true) :
    (main env).1 = .returned 285 0 := by
  have hvao : (vaoCall env).1 ≠ 0 := by simp [vaoCall, bind_VAO_22]
  obtain ⟨cropped_img, hcrop⟩ := Option.isSome_iff_exists.1 hcrop
  have htex : (textureCall env cropped_img).1 ≠ 0 := by
    simp [textureCall, bind_texture_data]
  unfold main
  rw [hw]
  simp [hvs, hfs, hlp, hvao, himg, hcrop, htex, hloop]

/-- C5: when a checked setup step fails, `main` returns at that step: its
outcome is the `return` of that step and its calls are exactly those of the
steps up to and including the failed one, each step taken once (`init_window`
returning `NULL`: line 196; `init_shader` returning 0 for the vertex shader:
line 199, for the fragment shader: line 201; `link_program` returning 0:
line 203; `stbi_load` returning `NULL`: line 218).  In each of these runs no
call of the render loop is made: no loop test, no frame, no draw call.  In
every run the steps are taken in program order and none is taken twice. -/
theorem main_stops_at_failed_step (env : Env) :
    ((windowCall env).1 = none →
      main env = (.returned 196 (-1), (windowCall env).2) ∧
        steps (main env).2 = [.window]) ∧
    ((windowCall env).1 ≠ none → (vertexShaderCall env).ret = 0 →
      main env = (.returned 199 (-1), (windowCall env).2 ++ (vertexShaderCall env).calls) ∧
        steps (main env).2 = [.window, .vertexShader]) ∧
    ((windowCall env).1 ≠ none → (vertexShaderCall env).ret ≠ 0 →
      (fragmentShaderCall env).ret = 0 →
      main env = (.returned 201 (-1), (windowCall env).2 ++ (vertexShaderCall env).calls ++
        (fragmentShaderCall env).calls) ∧
        steps (main env).2 = [.window, .vertexShader, .fragmentShader]) ∧
    ((windowCall env).1 ≠ none → (vertexShaderCall env).ret ≠ 0 →
      (fragmentShaderCall env).ret ≠ 0 → (linkCall env).ret = 0 →
      main env = (.returned 203 (-1), (windowCall env).2 ++ (vertexShaderCall env).calls ++
        (fragmentShaderCall env).calls ++ (linkCall env).calls) ∧
        steps (main env).2 = [.window, .vertexShader, .fragmentShader, .link]) ∧
    ((windowCall env).1 ≠ none → (vertexShaderCall env).ret ≠ 0 →
      (fragmentShaderCall env).ret ≠ 0 → (linkCall env).ret ≠ 0 →
      env.stbi_load "tileset.png" = none →
      main env = (.returned 218 0,
        setupCalls env ++ [.stbi_load "tileset.png", .fprintf "Failed image load\n"]) ∧
        steps (main env).2 =
          [.window, .vertexShader, .fragmentShader, .link, .vertexArray, .image]) ∧
    (((windowCall env).1 = none ∨ (vertexShaderCall env).ret = 0 ∨
        (fragmentShaderCall env).ret = 0 ∨ (linkCall env).ret = 0 ∨
        env.stbi_load "tileset.png" = none) →
      (∃ line status, (main env).1 = .returned line status) ∧
        drawCalls (main env).2 = [] ∧
        (main env).2.countP Call.isLoopTest = 0 ∧
        (main env).2.countP Call.isFrameStart = 0) ∧
    steps (main env).2 <+: allSteps := by
  have sw : steps (windowCall env).2 = [.window] := init_window_steps env _ _ _
  have sl : steps (linkCall env).calls = [.link] := link_program_steps env _ _
  refine ⟨?_, ?_, ?_, ?_, ?_, ?_, steps_main_in_order env⟩
  · intro hw
    rw [main_of_window_fail env hw]
    exact ⟨rfl, sw⟩
  · intro hw hvs
    rw [main_of_vertex_fail env hw hvs]
    refine ⟨rfl, ?_⟩
    show steps (_ ++ _) = _
    rw [steps_append, sw, vertexShaderCall_steps]
    rfl
  · intro hw hvs hfs
    rw [main_of_fragment_fail env hw hvs hfs]
    refine ⟨rfl, ?_⟩
    show steps (_ ++ _ ++ _) = _
    rw [steps_append, steps_append, sw, vertexShaderCall_steps, fragmentShaderCall_steps]
    rfl
  · intro hw hvs hfs hlp
    rw [main_of_link_fail env hw hvs hfs hlp]
    refine ⟨rfl, ?_⟩
    show steps (_ ++ _ ++ _ ++ _) = _
    rw [steps_append, steps_append, steps_append, sw, vertexShaderCall_steps,
      fragmentShaderCall_steps, sl]
    rfl
  · intro hw hvs hfs hlp himg
    rw [main_of_image_fail env hw hvs hfs hlp himg]
    refine ⟨rfl, ?_⟩
    show steps (_ ++ _) = _
    rw [steps_append, setupCalls_steps]
    rfl
  · intro hfail
    obtain ⟨hret, hq⟩ := main_of_failure env hfail
    exact ⟨hret, drawCalls_eq_nil hq, countP_eq_zero_of_quiet _ isLoopTest_inLoop hq,
      countP_eq_zero_of_quiet _ isFrameStart_inLoop hq⟩

/-- C5 on the sample run with a failing `stbi_load`: `main` returns on line 218
after the first six steps. -/
theorem main_stops_at_failed_step_witness :
    main sampleEnvNoImage = (.returned 218 0,
      setupCalls sampleEnvNoImage ++
        [.stbi_load "tileset.png", .fprintf "Failed image load\n"]) ∧
      steps (main sampleEnvNoImage).2 =
        [.window, .vertexShader, .fragmentShader, .link, .vertexArray, .image] :=
  (main_stops_at_failed_step sampleEnvNoImage).2.2.2.2.1 (by decide) (by decide)
    (by decide) (by decide) rfl

/-- The outcome of every run, with the condition that selects it. -/
theorem outcome_cases (env : Env) :
    ((windowCall env).1 = none ∧ (main env).1 = .returned 196 (-1)) ∨
    ((windowCall env).1 ≠ none ∧ (vertexShaderCall env).ret = 0 ∧
      (main env).1 = .returned 199 (-1)) ∨
    ((windowCall env).1 ≠ none ∧ (vertexShaderCall env).ret ≠ 0 ∧
      (fragmentShaderCall env).ret = 0 ∧ (main env).1 = .returned 201 (-1)) ∨
    ((windowCall env).1 ≠ none ∧ (vertexShaderCall env).ret ≠ 0 ∧
      (fragmentShaderCall env).ret ≠ 0 ∧ (linkCall env).ret = 0 ∧
      (main env).1 = .returned 203 (-1)) ∨
    ((windowCall env).1 ≠ none ∧ (vertexShaderCall env).ret ≠ 0 ∧
      (fragmentShaderCall env).ret ≠ 0 ∧ (linkCall env).ret ≠ 0 ∧
      ((main env).1 = .returned 218 0 ∨ (main env).1 = .undefined ∨
        (main env).1 = .returned 285 0 ∨ (main env).1 = .running)) := by
  rcases main_cases env with ⟨hw, h⟩ | ⟨hw, hvs, h⟩ | ⟨hw, hvs, hfs, h⟩ |
    ⟨hw, hvs, hfs, hlp, h⟩ |
    ⟨hw, hvs, hfs, hlp, ⟨_, h⟩ | ⟨img, _, _, h⟩ |
      ⟨window, img, cropped, _, _, _, ⟨_, h⟩ | ⟨_, h⟩⟩⟩
  · exact Or.inl ⟨hw, by rw [h]⟩
  · exact Or.inr (Or.inl ⟨hw, hvs, by rw [h]⟩)
  · exact Or.inr (Or.inr (Or.inl ⟨hw, hvs, hfs, by rw [h]⟩))
  · exact Or.inr (Or.inr (Or.inr (Or.inl ⟨hw, hvs, hfs, hlp, by rw [h]⟩)))
  · exact Or.inr (Or.inr (Or.inr (Or.inr ⟨hw, hvs, hfs, hlp, Or.inl (by rw [h])⟩)))
  · exact Or.inr (Or.inr (Or.inr (Or.inr ⟨hw, hvs, hfs, hlp, Or.inr (Or.inl (by rw [h]))⟩)))
  · exact Or.inr (Or.inr (Or.inr (Or.inr
      ⟨hw, hvs, hfs, hlp, Or.inr (Or.inr (Or.inl (by rw [h])))⟩)))
  · exact Or.inr (Or.inr (Or.inr (Or.inr
      ⟨hw, hvs, hfs, hlp, Or.inr (Or.inr (Or.inr (by rw [h])))⟩)))

/-- C8: `main` returns -1 exactly when `init_window`, one of the two
`init_shader` calls or `link_program` fails; when `stbi_load` fails it returns
0 (line 218), the status of the normal shutdown after the render loop
(line 285); these are the only returns a run reaches: `bind_VAO_22` and
`bind_texture_data` return 1 on every input, so the returns of lines 210 and
233 are never taken. -/
theorem main_exit_status (env : Env) :
    ((main env).1.status = some (-1) ↔
      ((windowCall env).1 = none ∨ (vertexShaderCall env).ret = 0 ∨
        (fragmentShaderCall env).ret = 0 ∨ (linkCall env).ret = 0)) ∧
    ((windowCall env).1 ≠ none → (vertexShaderCall env).ret ≠ 0 →
      (fragmentShaderCall env).ret ≠ 0 → (linkCall env).ret ≠ 0 →
      env.stbi_load "tileset.png" = none → (main env).1 = .returned 218 0) ∧
    (∀ (window : Nat) (img : Image), (windowCall env).1 = some window →
      (vertexShaderCall env).ret ≠ 0 → (fragmentShaderCall env).ret ≠ 0 →
      (linkCall env).ret ≠ 0 → env.stbi_load "tileset.png" = some img →
      (cropCall env img).isSome = true → (loopCall env window).exited = true →
      (main env).1 = .returned 285 0) ∧
    (∀ line status, (main env).1 = .returned line status →
      (status = -1 ∧ (line = 196 ∨ line = 199 ∨ line = 201 ∨ line = 203)) ∨
        (status = 0 ∧ (line = 218 ∨ line = 285))) ∧
    (∀ (VAO VBO : Nat) (v : List ℚ) (len : Nat), (bind_VAO_22 VAO VBO v len).1 = 1) ∧
    (∀ (texture : Nat) (f g : GLenum) (data : List Byte) (width height : Nat),
      (bind_texture_data texture f g data width height).1 = 1) ∧
    (∀ status, (main env).1 ≠ .returned 210 status ∧
      (main env).1 ≠ .returned 233 status) := by
  have hc := outcome_cases env
  refine ⟨?_, ?_, ?_, ?_, fun _ _ _ _ => rfl, fun _ _ _ _ _ _ => rfl, ?_⟩
  · constructor
    · intro hs
      rcases hc with ⟨hw, _⟩ | ⟨_, hvs, _⟩ | ⟨_, _, hfs, _⟩ | ⟨_, _, _, hlp, _⟩ |
        ⟨_, _, _, _, h | h | h | h⟩
      · exact Or.inl hw
      · exact Or.inr (Or.inl hvs)
      · exact Or.inr (Or.inr (Or.inl hfs))
      · exact Or.inr (Or.inr (Or.inr hlp))
      all_goals
        rw [h] at hs
        simp [Outcome.status] at hs
    · intro hf
      rcases hc with ⟨_, h⟩ | ⟨_, _, h⟩ | ⟨_, _, _, h⟩ | ⟨_, _, _, _, h⟩ |
        ⟨hw, hvs, hfs, hlp, _⟩
      · rw [h]; rfl
      · rw [h]; rfl
      · rw [h]; rfl
      · rw [h]; rfl
      · rcases hf with h1 | h1 | h1 | h1
        · exact absurd h1 hw
        · exact absurd h1 hvs
        · exact absurd h1 hfs
        · exact absurd h1 hlp
  · intro hw hvs hfs hlp himg
    rw [main_of_image_fail env hw hvs hfs hlp himg]
  · intro window img hw hvs hfs hlp himg hcrop hloop
    exact main_of_loop_exit env window img hw hvs hfs hlp himg hcrop hloop
  · intro line status hret
    rcases hc with ⟨_, h⟩ | ⟨_, _, h⟩ | ⟨_, _, _, h⟩ | ⟨_, _, _, _, h⟩ |
      ⟨_, _, _, _, h | h | h | h⟩
    all_goals
      rw [h] at hret
      simp at hret
    all_goals
      obtain ⟨rfl, rfl⟩ := hret
      simp
  · intro status
    rcases hc with ⟨_, h⟩ | ⟨_, _, h⟩ | ⟨_, _, _, h⟩ | ⟨_, _, _, _, h⟩ |
      ⟨_, _, _, _, h | h | h | h⟩
    all_goals
      rw [h]
      simp

/-- The crop of `main` is defined when `malloc` succeeds and the image is at
least 16 wide and 16 high with at most 4 channels. -/
theorem cropCall_isSome (env : Env) (img : Image) (block : Nat → Byte)
    (hm : env.malloc = some block) (hw : 16 ≤ img.width) (hh : 16 ≤ img.height)
    (hn : img.n_channels ≤ 4)
    (hdata : img.data.length = img.width * img.height * img.n_channels) :
    (cropCall env img).isSome = true := by
  have hb : 15 * img.width + 16 ≤ img.width * img.height := by
    have := Nat.mul_le_mul_left img.width hh
    omega
  obtain ⟨out, hout, _⟩ := cropRows_spec img.data img.width img.n_channels
    ((List.range cropped_size).map block) 16
    (fun y hy => hdata ▸ cropSrc_in_bounds hb hy)
    (fun y hy => by
      rw [List.length_map, List.length_range]
      exact cropDst_in_bounds hn hy)
  unfold cropCall
  rw [hm]
  exact Option.isSome_iff_exists.2 ⟨out, hout⟩

/-- C8 on the sample run: every step succeeds, escape is pressed in the second
frame, and `main` returns 0 from line 285. -/
theorem main_exit_status_witness : (main sampleEnv).1 = .returned 285 0 :=
  (main_exit_status sampleEnv).2.2.1 1 ⟨16, 16, 4, List.replicate 1024 255⟩ rfl
    (by decide) (by decide) (by decide) rfl
    (cropCall_isSome sampleEnv ⟨16, 16, 4, List.replicate 1024 255⟩ (fun _ => 0) rfl
      (by decide) (by decide) (by decide) (List.length_replicate 1024 255))
    rfl

/-! ## `init_shader` -/

/-- C9: `init_shader` returns the value of `GL_COMPILE_STATUS` of the shader
compiled from the text read from `path`, or from the empty string when reading
throws; so it returns non-zero exactly when that status is non-zero, and it
calls `glfwTerminate` exactly when the status is zero.  When reading fails the
failure is reported, the empty string is passed to `glShaderSource`, and the
result is the compile status of the empty string, which need not be 0.  In
every case `glCreateShader` is called and its handle is stored in `*shader`. -/
theorem init_shader_result (env : Env) (shader_type : GLenum) (path : String) :
    (init_shader env shader_type path).ret =
      env.compileStatus shader_type ((env.readFile path).getD "") ∧
    ((init_shader env shader_type path).ret ≠ 0 ↔
      env.compileStatus shader_type ((env.readFile path).getD "") ≠ 0) ∧
    (Call.glfwTerminate ∈ (init_shader env shader_type path).calls ↔
      env.compileStatus shader_type ((env.readFile path).getD "") = 0) ∧
    (env.readFile path = none →
      (init_shader env shader_type path).ret = env.compileStatus shader_type "" ∧
      Call.fprintf ("Failed to read file: " ++ path ++ "\n") ∈
        (init_shader env shader_type path).calls ∧
      Call.glShaderSource (env.createShader shader_type) "" ∈
        (init_shader env shader_type path).calls) ∧
    (∀ text, env.readFile path = some text →
      Call.glShaderSource (env.createShader shader_type) text ∈
        (init_shader env shader_type path).calls) ∧
    Call.glCreateShader shader_type ∈ (init_shader env shader_type path).calls ∧
    (init_shader env shader_type path).out = env.createShader shader_type ∧
    (∃ env' : Env, env'.readFile path = none ∧ (init_shader env' shader_type path).ret ≠ 0) := by
  have hall : ∀ e : Env, (init_shader e shader_type path).ret =
      e.compileStatus shader_type ((e.readFile path).getD "") := by
    intro e
    unfold init_shader
    cases e.readFile path <;> dsimp only <;> split <;> rfl
  have hret := hall env
  have hout : (init_shader env shader_type path).out = env.createShader shader_type := by
    unfold init_shader
    cases env.readFile path <;> dsimp only <;> split <;> rfl
  have hterm : Call.glfwTerminate ∈ (init_shader env shader_type path).calls ↔
      env.compileStatus shader_type ((env.readFile path).getD "") = 0 := by
    unfold init_shader
    cases env.readFile path <;> dsimp only <;> split <;> simp [*]
  refine ⟨hret, by rw [hret], hterm, ?_, ?_, ?_, hout, ?_⟩
  · intro hread
    refine ⟨by rw [hret, hread]; rfl, ?_, ?_⟩
    · unfold init_shader
      rw [hread]
      dsimp only
      split <;> simp
    · unfold init_shader
      rw [hread]
      dsimp only
      split <;> simp
  · intro text hread
    unfold init_shader
    rw [hread]
    dsimp only
    split <;> simp
  · unfold init_shader
    cases env.readFile path <;> dsimp only <;> split <;> simp
  · refine ⟨sampleEnvNoFile, rfl, ?_⟩
    rw [hall sampleEnvNoFile]
    show (1 : Int) ≠ 0
    decide

/-- C9 on the sample run without shader files: reading fails, the empty string
is compiled, and the result is its compile status. -/
theorem init_shader_result_witness :
    (init_shader sampleEnvNoFile .GL_VERTEX_SHADER vertex_shader_path).ret =
        sampleEnvNoFile.compileStatus .GL_VERTEX_SHADER "" ∧
      Call.fprintf ("Failed to read file: " ++ vertex_shader_path ++ "\n") ∈
        (init_shader sampleEnvNoFile .GL_VERTEX_SHADER vertex_shader_path).calls ∧
      Call.glShaderSource (sampleEnvNoFile.createShader .GL_VERTEX_SHADER) "" ∈
        (init_shader sampleEnvNoFile .GL_VERTEX_SHADER vertex_shader_path).calls :=
  (init_shader_result sampleEnvNoFile .GL_VERTEX_SHADER vertex_shader_path).2.2.2.1 rfl

end ScrollGL
